import Mathlib

/-!
Verification development for the resume-screening scoring engine
(`backend/app/services/scoring_engine.py`).

The scoring core is embedded shallowly: Python dictionaries become Lean
structures (optional keys become `Option` fields, with the source's
`.get`-style defaulting applied at each use site exactly as the source
does), Python numbers become `ℚ`, Python strings become `String`, and
Python dicts used as ordered maps become insertion-ordered association
lists.  Every definition is translated from the source file; deviations
forced by the host language (e.g. Python's `re.findall` is realised as an
explicit fuel-indexed scanner with the same observable behaviour on the
patterns used) are noted at the definition concerned.
-/

namespace ResumeScreening

/-- Decides whether `needle` occurs as a contiguous substring of `hay`,
working over the underlying character lists.  This models Python's
`needle in hay` test on strings (the empty needle matches everything). -/
def charsInfix (needle : List Char) : List Char → Bool
  | [] => needle.isEmpty
  | c :: rest => needle.isPrefixOf (c :: rest) || charsInfix needle rest

/-- Python's `needle in hay` substring test on strings. -/
def strContains (hay needle : String) : Bool :=
  charsInfix needle.toList hay.toList

/-- The `synonyms` table of `self.skill_intelligence` (scoring_engine.py,
constructor), in source order: canonical name paired with its variant
strings. -/
def synonyms_table : List (String × List String) :=
  [ ("javascript", ["js", "java script", "ecmascript", "javascript", "node", "nodejs"])
  , ("python", ["py", "python3", "python 3", "python"])
  , ("react", ["reactjs", "react.js", "react"])
  , ("angular", ["angularjs", "angular.js", "angular"])
  , ("vue", ["vuejs", "vue.js", "vue"])
  , ("docker", ["containerization", "docker"])
  , ("kubernetes", ["k8s", "kube", "kubernetes"])
  , ("aws", ["amazon web services", "amazon aws", "aws"])
  , ("postgresql", ["postgres", "postgresql", "postgre"])
  , ("mysql", ["mysql", "my sql"])
  , ("mongodb", ["mongo", "mongodb", "mongo db"])
  , ("git", ["github", "gitlab", "version control", "git"])
  , ("html", ["html5", "html"])
  , ("css", ["css3", "css", "cascading style sheets"])
  , ("sql", ["structured query language", "sql"])
  , ("rest", ["rest api", "restful", "rest"])
  , ("graphql", ["graph ql", "graphql"])
  , ("typescript", ["ts", "typescript"])
  , ("java", ["java"])
  , ("csharp", ["c#", "c sharp", "csharp", ".net"])
  , ("php", ["php"])
  , ("ruby", ["ruby on rails", "rails", "ruby"])
  , ("golang", ["go", "golang"])
  , ("swift", ["swift"])
  , ("kotlin", ["kotlin"]) ]

/-- The `relationships` table of `self.skill_intelligence`. -/
def relationships_table : List (String × List String) :=
  [ ("react", ["javascript", "html", "css", "jsx", "redux", "webpack"])
  , ("angular", ["javascript", "typescript", "html", "css", "rxjs"])
  , ("vue", ["javascript", "html", "css", "vuex"])
  , ("django", ["python", "postgresql", "html", "css"])
  , ("flask", ["python", "html", "css", "sql"])
  , ("express", ["javascript", "nodejs", "mongodb"])
  , ("docker", ["kubernetes", "aws", "devops", "containerization"])
  , ("kubernetes", ["docker", "aws", "devops", "microservices"])
  , ("aws", ["docker", "kubernetes", "devops", "cloud"])
  , ("postgresql", ["sql", "database", "backend"])
  , ("mongodb", ["nosql", "database", "backend"])
  , ("git", ["github", "gitlab", "version control"])
  , ("python", ["django", "flask", "pandas", "numpy", "tensorflow"])
  , ("javascript", ["react", "angular", "vue", "nodejs", "express"])
  , ("java", ["spring", "hibernate", "maven", "gradle"]) ]

/-- `_normalize_skill`: empty input maps to the empty string; otherwise the
input is lowercased and trimmed, the synonym table is scanned in order for
a variant list containing the cleaned string, and the canonical name is
returned on a hit, else the cleaned string itself. -/
def normalize_skill (skill : String) : String :=
  if skill = "" then ""
  else
    let skill_lower := skill.toLower.trim
    match synonyms_table.find? (fun p => p.2.contains skill_lower) with
    | some p => p.1
    | none => skill_lower

/-- `_skills_are_related`: symmetric lookup over the (asymmetric)
relationship table. -/
def skills_are_related (skill1 skill2 : String) : Bool :=
  let skill1_relations := ((relationships_table.find? (fun p => p.1 = skill1)).map (·.2)).getD []
  let skill2_relations := ((relationships_table.find? (fun p => p.1 = skill2)).map (·.2)).getD []
  skill1_relations.contains skill2 || skill2_relations.contains skill1

/-- A raw entry of a `skills_by_category` list: the source accepts either a
structured dict (`name` / `proficiency` / `years_experience`, each possibly
absent) or a bare string. -/
inductive SkillItem where
  | obj (name : Option String) (proficiency : Option String) (years : Option ℚ)
  | txt (s : String)
deriving DecidableEq

/-- The per-candidate record stored in `candidate_normalized`. -/
structure CandInfo where
  original_name : String
  proficiency : String
  years : ℚ
deriving DecidableEq

/-- Python-dict assignment `m[k] = v`: overwrite in place if the key is
present (keeping its original position), else append. -/
def insertEntry (m : List (String × CandInfo)) (k : String) (v : CandInfo) :
    List (String × CandInfo) :=
  if m.any (fun p => p.1 = k) then m.map (fun p => if p.1 = k then (k, v) else p)
  else m ++ [(k, v)]

/-- One step of the `candidate_normalized` construction loop of
`_match_skills_with_intelligence`: apply the source's defaulting
(`or "intermediate"`, `or 0`, empty-name skip) and key the record by the
normalized skill name. -/
def candidateStep (m : List (String × CandInfo)) (item : SkillItem) :
    List (String × CandInfo) :=
  match item with
  | .obj nameOpt profOpt yearsOpt =>
      let name := nameOpt.getD ""
      let proficiency :=
        match profOpt with
        | none => "intermediate"
        | some p => if p = "" then "intermediate" else p
      let years := yearsOpt.getD 0
      if name.trim = "" then m
      else insertEntry m (normalize_skill name) ⟨name, proficiency, years⟩
  | .txt s =>
      if s.trim = "" then m
      else insertEntry m (normalize_skill s) ⟨s, "intermediate", 0⟩

/-- The `candidate_normalized` map, in dict insertion order. -/
def buildCandidateMap (candidate_skills : List SkillItem) : List (String × CandInfo) :=
  candidate_skills.foldl candidateStep []

/-- Membership-ordered lookup in the candidate map (Python dict lookup). -/
def lookupEntry (m : List (String × CandInfo)) (k : String) : Option CandInfo :=
  (m.find? (fun p => p.1 = k)).map (·.2)

/-- The three match kinds produced by the matching cascade. -/
inductive MatchType where
  | exact
  | syn
  | related
deriving DecidableEq

/-- The matching cascade for one required skill: direct key, then
normalized (synonym) key, then first related candidate entry in map
order. -/
def findMatch (m : List (String × CandInfo)) (required_skill : String) :
    Option (CandInfo × MatchType) :=
  let required_lower := required_skill.toLower
  match lookupEntry m required_lower with
  | some info => some (info, .exact)
  | none =>
    let normalized_required := normalize_skill required_skill
    match lookupEntry m normalized_required with
    | some info => some (info, .syn)
    | none =>
      match m.find? (fun p => skills_are_related required_lower p.1) with
      | some p => some (p.2, .related)
      | none => none

/-- `proficiency_scores.get(proficiency, 80)`. -/
def proficiency_base_score (proficiency : String) : ℚ :=
  if proficiency = "expert" then 100
  else if proficiency = "advanced" then 90
  else if proficiency = "intermediate" then 80
  else if proficiency = "beginner" then 60
  else 80

/-- `type_modifiers` lookup (the `0.8` dictionary default is unreachable
for the three constructors). -/
def type_modifier : MatchType → ℚ
  | .exact => 1
  | .syn => 0.95
  | .related => 0.85

/-- The per-skill score of a successful match (scoring_engine.py lines
906-928): proficiency base plus a years bonus of `min(years*2, 10)`,
scaled by the match-type modifier and capped at 100. -/
def match_final_score (proficiency : String) (years : ℚ) (t : MatchType) : ℚ :=
  min ((proficiency_base_score proficiency + min (years * 2) 10) * type_modifier t) 100

/-- A record appended to `matches`. -/
structure MatchRec where
  skill : String
  matched_with : String
  proficiency : String
  years_experience : ℚ
  match_type : MatchType
  score : ℚ
  category : String
deriving DecidableEq

/-- A record appended to `missing` / `missing_skills`.  The
`level_of_importance` field embeds the Python key `"importance_level"`,
which is present only on records produced by the empty-category branch of
`_score_enhanced_skills_match`. -/
structure MissingRec where
  skill : String
  category : String
  critical : Bool
  level_of_importance : Option String
deriving DecidableEq

/-- A record appended to `synonyms`. -/
structure SynRec where
  required : String
  found : String
  normalized : String
deriving DecidableEq

/-- The fixed critical-skill list used for unmatched required skills. -/
def critical_skills : List String :=
  ["python", "javascript", "react", "java", "sql", "aws", "docker", "git"]

/-- Result of `_match_skills_with_intelligence`. -/
structure MatchOutcome where
  score : ℚ
  matchesList : List MatchRec
  missing : List MissingRec
  syns : List SynRec
deriving DecidableEq

/-- One iteration of the `for required_skill in required_skills` loop. -/
def matchStep (m : List (String × CandInfo)) (category : String)
    (acc : List MatchRec × List MissingRec × List SynRec) (required_skill : String) :
    List MatchRec × List MissingRec × List SynRec :=
  let (ms, miss, syns) := acc
  match findMatch m required_skill with
  | some (info, t) =>
      let final_score := match_final_score info.proficiency info.years t
      let syns' :=
        if t = .syn then
          syns ++ [⟨required_skill, info.original_name, normalize_skill required_skill⟩]
        else syns
      (ms ++ [⟨required_skill, info.original_name, info.proficiency, info.years, t,
              final_score, category⟩], miss, syns')
  | none =>
      let is_critical := critical_skills.any (fun cs => strContains required_skill.toLower cs)
      (ms, miss ++ [⟨required_skill, category, is_critical, none⟩], syns)

/-- `_match_skills_with_intelligence`: build the normalized candidate map,
run the matching cascade over the required skills, and average the match
scores over `len(required)*100` possible points. -/
def match_skills_with_intelligence (candidate_skills : List SkillItem)
    (required_skills : List String) (category : String) : MatchOutcome :=
  let m := buildCandidateMap candidate_skills
  let (ms, miss, syns) := required_skills.foldl (matchStep m category) ([], [], [])
  let category_score : ℚ :=
    if required_skills ≠ [] then
      ((ms.map (fun mr => mr.score)).sum / (required_skills.length * 100)) * 100
    else 100
  ⟨min category_score 100, ms, miss, syns⟩

/-- The `role_specific_weights` table from the constructor, in source
order. -/
def role_specific_weights_table : List (String × List (String × ℚ)) :=
  [ ("fullstack_developer",
      [ ("programming_languages", 0.25), ("web_frameworks", 0.30), ("databases", 0.20)
      , ("cloud_platforms", 0.15), ("devops_tools", 0.10), ("frontend_tools", 0.15)
      , ("data_tools", 0.05), ("version_control", 0.05), ("testing_tools", 0.05) ])
  , ("frontend_developer",
      [ ("web_frameworks", 0.35), ("programming_languages", 0.25), ("frontend_tools", 0.30)
      , ("databases", 0.05), ("cloud_platforms", 0.10), ("devops_tools", 0.05)
      , ("version_control", 0.10), ("testing_tools", 0.10) ])
  , ("backend_developer",
      [ ("programming_languages", 0.35), ("databases", 0.30), ("web_frameworks", 0.25)
      , ("cloud_platforms", 0.20), ("devops_tools", 0.15), ("frontend_tools", 0.02)
      , ("version_control", 0.08), ("testing_tools", 0.10) ])
  , ("data_scientist",
      [ ("data_tools", 0.45), ("programming_languages", 0.30), ("databases", 0.25)
      , ("cloud_platforms", 0.15), ("web_frameworks", 0.05), ("project_management", 0.10)
      , ("testing_tools", 0.05), ("version_control", 0.05) ])
  , ("devops_engineer",
      [ ("devops_tools", 0.40), ("cloud_platforms", 0.35), ("programming_languages", 0.20)
      , ("databases", 0.10), ("web_frameworks", 0.05), ("testing_tools", 0.08)
      , ("version_control", 0.12) ])
  , ("mobile_developer",
      [ ("mobile_development", 0.40), ("programming_languages", 0.30), ("databases", 0.15)
      , ("cloud_platforms", 0.15), ("web_frameworks", 0.10), ("testing_tools", 0.10)
      , ("version_control", 0.05) ])
  , ("general_developer",
      [ ("programming_languages", 0.25), ("web_frameworks", 0.20), ("databases", 0.15)
      , ("cloud_platforms", 0.12), ("devops_tools", 0.10), ("frontend_tools", 0.10)
      , ("testing_tools", 0.05), ("version_control", 0.03) ]) ]

/-- The "improved default weights for unknown roles" of
`_get_role_specific_weights_fixed`. -/
def default_role_weights : List (String × ℚ) :=
  [ ("programming_languages", 0.25), ("web_frameworks", 0.20), ("databases", 0.15)
  , ("cloud_platforms", 0.12), ("devops_tools", 0.10), ("frontend_tools", 0.10)
  , ("testing_tools", 0.05), ("version_control", 0.03) ]

/-- `_get_role_specific_weights_fixed`: pick the role table (or the
default) and normalize the weights to sum to 1 when the total is
positive. -/
def get_role_specific_weights_fixed (detected_role : String) : List (String × ℚ) :=
  let weights :=
    ((role_specific_weights_table.find? (fun p => p.1 = detected_role)).map (·.2)).getD
      default_role_weights
  let total_weight := (weights.map (·.2)).sum
  if total_weight > 0 then weights.map (fun p => (p.1, p.2 / total_weight)) else weights

/-- The tiered floor of `_score_enhanced_skills_match` for a category with
requirements but no declared candidate skills. -/
def category_floor_score (weight : ℚ) : ℚ :=
  if weight ≥ 0.25 then 0
  else if weight ≥ 0.15 then 10
  else 50

/-- The `"importance_level"` label attached to missing skills of an empty
category. -/
def importance_label (weight : ℚ) : String :=
  if weight ≥ 0.25 then "critical"
  else if weight ≥ 0.15 then "important"
  else "optional"

/-- Outcome of one iteration of the category loop of
`_score_enhanced_skills_match`. -/
structure CatOutcome where
  category : String
  weight : ℚ
  score : ℚ
  matchesList : List MatchRec
  missing : List MissingRec
  syns : List SynRec
deriving DecidableEq

/-- The body of the `for category, weight in role_weights.items()` loop of
`_score_enhanced_skills_match` for one category: `none` encodes the
`continue` on a non-positive weight; otherwise no requirements yield a
full 100, an empty candidate category yields the tiered floor with every
required skill recorded missing (critical iff weight >= 0.25), and the
general case delegates to `match_skills_with_intelligence`. -/
def per_category (skills_by_category : List (String × List SkillItem))
    (required_skills_map : List (String × List String)) (cw : String × ℚ) :
    Option CatOutcome :=
  let (category, weight) := cw
  if weight ≤ 0 then none
  else
    let required_list := ((required_skills_map.find? (fun p => p.1 = category)).map (·.2)).getD []
    let candidate_category_skills :=
      ((skills_by_category.find? (fun p => p.1 = category)).map (·.2)).getD []
    if required_list = [] then
      some ⟨category, weight, 100, [], [], []⟩
    else if candidate_category_skills = [] then
      some ⟨category, weight, category_floor_score weight, [],
        required_list.map (fun skill =>
          ⟨skill, category, decide (weight ≥ 0.25), some (importance_label weight)⟩), []⟩
    else
      let r := match_skills_with_intelligence candidate_category_skills required_list category
      some ⟨category, weight, r.score, r.matchesList, r.missing, r.syns⟩

/-- `_calculate_skill_relationship_bonuses`: fixed co-occurrence bonuses
over the lowered names of the matched required skills, in source dict
insertion order. -/
def calculate_skill_relationship_bonuses (matched_skills : List MatchRec) :
    List (String × ℚ) :=
  let skill_names := matched_skills.map (fun mr => mr.skill.toLower)
  (if skill_names.contains "react" && skill_names.contains "javascript" then
    [("react_javascript_stack", (0.15 : ℚ))] else [])
  ++ (if skill_names.contains "django" && skill_names.contains "python" then
    [("django_python_stack", (0.15 : ℚ))] else [])
  ++ (if skill_names.contains "docker" && skill_names.contains "kubernetes" then
    [("container_orchestration_stack", (0.12 : ℚ))] else [])
  ++ (if skill_names.contains "aws" &&
        (skill_names.contains "docker" || skill_names.contains "kubernetes") then
    [("cloud_devops_combo", (0.10 : ℚ))] else [])
  ++ (if (["react", "vue", "angular", "html", "css"].any (fun s => skill_names.contains s)) &&
        (["python", "java", "node", "sql", "database"].any (fun s => skill_names.contains s)) then
    [("fullstack_breadth", (0.18 : ℚ))] else [])

/-- `_calculate_proficiency_score`: mean proficiency value over the matched
skills (0 when nothing matched). -/
def calculate_proficiency_score (matched_skills : List MatchRec) : ℚ :=
  if matched_skills = [] then 0
  else
    (matched_skills.map (fun mr => proficiency_base_score mr.proficiency)).sum /
      matched_skills.length

/-- Result of `_score_enhanced_skills_match`. -/
structure SkillsScoring where
  score : ℚ
  base_score : ℚ
  relationship_bonuses : List (String × ℚ)
  bonus_multiplier : ℚ
  matched_skills : List MatchRec
  missing_critical : List MissingRec
  category_coverage : List (String × ℚ)
  synonym_matches : List SynRec
  total_matched : ℕ
  proficiency_score : ℚ
  role_weights_applied : List (String × ℚ)
  detected_role : String
deriving DecidableEq

/-- `_score_enhanced_skills_match`: role-weighted average of the
per-category scores, followed by the stack-synergy bonus multiplier
`1 + 0.15 * (sum of bonuses)` and a cap at 100.  The per-iteration
accumulations of the source loop are realised as a `filterMap` over the
role's weight list followed by sums/concatenations, which preserves the
source's iteration order. -/
def score_enhanced_skills_match (skills_by_category : List (String × List SkillItem))
    (required_skills_map : List (String × List String)) (detected_role : String) :
    SkillsScoring :=
  let role_weights := get_role_specific_weights_fixed detected_role
  let cats := role_weights.filterMap (per_category skills_by_category required_skills_map)
  let total_weighted_score := (cats.map (fun c => c.score * c.weight)).sum
  let total_category_weight := (cats.map (fun c => c.weight)).sum
  let matched_skills := (cats.map (fun c => c.matchesList)).flatten
  let missing_skills := (cats.map (fun c => c.missing)).flatten
  let synonym_matches := (cats.map (fun c => c.syns)).flatten
  let category_scores := cats.map (fun c => (c.category, c.score))
  let overall_skills_score :=
    if total_category_weight > 0 then total_weighted_score / total_category_weight else 0
  let relationship_bonuses := calculate_skill_relationship_bonuses matched_skills
  let bonus_multiplier := 1 + ((relationship_bonuses.map (·.2)).sum) * 0.15
  let enhanced_score := min (overall_skills_score * bonus_multiplier) 100
  { score := enhanced_score
  , base_score := overall_skills_score
  , relationship_bonuses := relationship_bonuses
  , bonus_multiplier := bonus_multiplier
  , matched_skills := matched_skills
  , missing_critical := missing_skills.filter (fun mr => mr.critical)
  , category_coverage := category_scores
  , synonym_matches := synonym_matches
  , total_matched := matched_skills.length
  , proficiency_score := calculate_proficiency_score matched_skills
  , role_weights_applied := role_weights
  , detected_role := detected_role }

/-- The `experience_analysis` sub-dictionary of a resume profile. -/
structure ExperienceAnalysisData where
  total_years : Option ℚ
  relevant_years : Option ℚ
  current_level : Option String
deriving DecidableEq

/-- One entry of `work_history`.  Absent string keys are the empty string
(the source reads them with `.get(key, "")`); `duration_months` keeps its
optionality because the source defaults it to 24 at its use site. -/
structure WorkEntry where
  title : String
  key_achievements : List String
  technologies_used : List String
  duration_months : Option ℚ
  start_date : String
  end_date : String
deriving DecidableEq

/-- A degree record (`level` and `field`). -/
structure Degree where
  level : String
  field : Option String
deriving DecidableEq

/-- A certification record. -/
structure Certification where
  name : Option String
deriving DecidableEq

/-- The `education` sub-dictionary of a resume profile. -/
structure EducationData where
  degrees : List Degree
  certifications : List Certification
deriving DecidableEq

/-- The `contact_info` sub-dictionary. -/
structure ContactInfo where
  name : Option String
  email : Option String
  phone : Option String
  linkedin : Option String
  location : Option String
deriving DecidableEq

/-- The `career_insights` sub-dictionary. -/
structure CareerInsights where
  career_trajectory : Option String
  specializations : List String
  innovation_indicators : List String
deriving DecidableEq

/-- The `resume_quality` sub-dictionary (only `overall_quality` is read by
the scoring core). -/
structure ResumeQuality where
  overall_quality : Option ℚ
deriving DecidableEq

/-- The `leadership_indicators` sub-dictionary (only the boolean flag is
read). -/
structure LeadershipIndicators where
  has_leadership_experience : Bool
deriving DecidableEq

/-- A resume profile as consumed by the scoring engine: the structured
output of the (external) resume-analysis collaborator, restricted to the
fields the scoring core reads. -/
structure ResumeProfile where
  skills_by_category : List (String × List SkillItem)
  experience_analysis : ExperienceAnalysisData
  work_history : List WorkEntry
  education : EducationData
  contact_info : ContactInfo
  resume_quality : ResumeQuality
  career_insights : CareerInsights
  leadership_indicators : LeadershipIndicators
  projects : List String
  skill_diversity_score : Option ℚ
deriving DecidableEq

/-- The `education_requirements` sub-dictionary of a job profile. -/
structure EducationRequirements where
  required_degree : Option String
  preferred_degree : Option String
  field_of_study : List String
  certifications : List String
deriving DecidableEq

/-- A job profile as consumed by the scoring engine, restricted to the
fields the scoring core reads.  `key_responsibilities` is `none` when the
key is absent (the source then renders it as the empty string) and a list
of strings otherwise (the source renders it through `str(...)`). -/
structure JobProfile where
  summary : String
  key_responsibilities : Option (List String)
  seniority_level : String
  required_skills : List (String × List String)
  minimum_experience : Option ℚ
  education_requirements : EducationRequirements
deriving DecidableEq

/-- Python's `str(...)` rendering of a list of strings, used where the
source interpolates a list into an f-string (`"['a', 'b']"`). -/
def pyReprList (xs : List String) : String :=
  "[" ++ String.intercalate ", " (xs.map (fun s => "\u0027" ++ s ++ "\u0027")) ++ "]"

/-- The frontend technology keyword list of `_detect_role_type`. -/
def frontend_techs : List String :=
  [ "react", "angular", "vue", "javascript", "typescript", "jsx", "tsx"
  , "html", "css", "scss", "sass", "bootstrap", "material-ui", "tailwind"
  , "frontend", "front-end", "ui", "ux", "user interface", "responsive" ]

/-- The backend technology keyword list of `_detect_role_type`. -/
def backend_techs : List String :=
  [ "python", "django", "flask", "fastapi", "java", "spring", "spring boot"
  , "node.js", "nodejs", "express", "api", "rest", "restful", "graphql"
  , "backend", "back-end", "server-side", "microservices", "database design"
  , "php", "laravel", "ruby", "rails", "go", "golang", ".net", "c#" ]

/-- The explicit multi-stack phrasing list of `_detect_role_type`. -/
def fullstack_indicators : List String :=
  [ "full stack", "fullstack", "full-stack", "end-to-end", "end to end"
  , "frontend and backend", "backend and frontend", "front-end and back-end"
  , "both frontend and backend", "across the stack" ]

/-- The devops technology keyword list of `_detect_role_type`. -/
def devops_techs : List String :=
  [ "docker", "kubernetes", "k8s", "jenkins", "ci/cd", "terraform"
  , "ansible", "devops", "infrastructure", "deployment", "pipeline"
  , "containerization", "orchestration", "automation" ]

/-- The data-science technology keyword list of `_detect_role_type`. -/
def data_techs : List String :=
  [ "pandas", "numpy", "tensorflow", "pytorch", "scikit-learn", "machine learning"
  , "data science", "ml", "ai", "artificial intelligence", "jupyter", "spark"
  , "data analysis", "data engineering", "deep learning", "nlp" ]

/-- The mobile technology keyword list of `_detect_role_type`. -/
def mobile_techs : List String :=
  [ "ios", "android", "swift", "kotlin", "react native", "flutter"
  , "mobile", "mobile development", "mobile app", "xamarin", "app development" ]

/-- `count_job_requirements` (nested in `_detect_role_type`): each declared
required skill counts once if any keyword is a substring of it or it is a
substring of any keyword; each keyword additionally counts once if it
occurs in the combined job text. -/
def count_job_requirements (tech_list : List String)
    (job_skills : List (String × List String)) (text : String) : ℕ :=
  (job_skills.map (fun p =>
    (p.2.filter (fun skill =>
      tech_list.any (fun tech =>
        strContains skill.toLower tech || strContains tech skill.toLower))).length)).sum
  + (tech_list.filter (fun tech => strContains text tech)).length

/-- The decision chain of `_detect_role_type` over the computed keyword
counts (scoring_engine.py lines 785-838), in source order. -/
def detect_role_from_counts (fullstack_explicit : Bool)
    (frontend_count backend_count devops_count data_count mobile_count : ℕ) : String :=
  if fullstack_explicit then "fullstack_developer"
  else if frontend_count ≥ 3 ∧ backend_count ≥ 3 then "fullstack_developer"
  else if frontend_count ≥ 2 ∧ backend_count ≥ 2 then "fullstack_developer"
  else if data_count ≥ 4 then "data_scientist"
  else if mobile_count ≥ 3 then "mobile_developer"
  else if devops_count ≥ 4 ∧ frontend_count + backend_count < 4 then "devops_engineer"
  else if backend_count ≥ 4 ∧ frontend_count < 2 then "backend_developer"
  else if frontend_count ≥ 4 ∧ backend_count < 2 then "frontend_developer"
  else if backend_count > frontend_count then "backend_developer"
  else if frontend_count > backend_count then "frontend_developer"
  else if frontend_count ≥ 1 ∧ backend_count ≥ 1 then "fullstack_developer"
  else "general_developer"

/-- `_detect_role_type`: classify the JOB role from the job text and the
declared required skills.  (The source also receives the resume analysis
but never reads it.) -/
def detect_role_type (job : JobProfile) : String :=
  let job_title := job.summary
  let job_description :=
    match job.key_responsibilities with
    | none => ""
    | some l => pyReprList l
  let combined_text := (job_title ++ " " ++ job_description ++ " " ++ job.seniority_level).toLower
  let frontend_count := count_job_requirements frontend_techs job.required_skills combined_text
  let backend_count := count_job_requirements backend_techs job.required_skills combined_text
  let devops_count := count_job_requirements devops_techs job.required_skills combined_text
  let data_count := count_job_requirements data_techs job.required_skills combined_text
  let mobile_count := count_job_requirements mobile_techs job.required_skills combined_text
  let fullstack_explicit := fullstack_indicators.any (fun ind => strContains combined_text ind)
  detect_role_from_counts fullstack_explicit frontend_count backend_count devops_count
    data_count mobile_count

/-- A detected red flag. -/
structure RedFlag where
  type : String
  description : String
  severity : String
  penalty : ℚ
deriving DecidableEq

/-- Result of `_detect_red_flags`. -/
structure RedFlagAnalysis where
  flags_detected : List RedFlag
  total_penalty : ℚ
  risk_level : String
  has_concerns : Bool
deriving DecidableEq

/-- `_assess_risk_level` (applied to the unclamped penalty total, as in the
source). -/
def assess_risk_level (penalty : ℚ) : String :=
  if penalty ≥ 0.20 then "high"
  else if penalty ≥ 0.10 then "medium"
  else if penalty > 0 then "low"
  else "minimal"

/-- The adjacent-pair condition of the simplified employment-gap check:
both date strings truthy, the earlier end date is not "present", and
either string contains "gap". -/
def gap_pair (cur nxt : WorkEntry) : Bool :=
  cur.end_date ≠ "" && nxt.start_date ≠ "" && cur.end_date ≠ "present" &&
    (strContains cur.end_date.toLower "gap" || strContains nxt.start_date.toLower "gap")

/-- `_detect_red_flags`: job-hopping over the five most recent entries,
the simplified employment-gap scan (at most one flag, as the source breaks
on the first hit), and the over-qualification check; the penalties
accumulate and the total is clamped at 0.25.  The risk label is computed
from the unclamped total, as in the source. -/
def detect_red_flags (resume : ResumeProfile) : RedFlagAnalysis :=
  let work_history := resume.work_history
  let job_hop : Option RedFlag :=
    if work_history.length > 2 then
      let short_tenures :=
        ((work_history.take 5).filter (fun j => (j.duration_months.getD 24) < 12)).length
      if short_tenures ≥ 3 then
        some ⟨"job_hopping",
              "Multiple short tenures (" ++ toString short_tenures ++ " jobs < 1 year)",
              "medium", 0.15⟩
      else none
    else none
  let gap : Option RedFlag :=
    if work_history.length > 1 &&
        (work_history.zip work_history.tail).any (fun p => gap_pair p.1 p.2) then
      some ⟨"employment_gaps", "Employment gap detected", "low", 0.08⟩
    else none
  let experience_years := resume.experience_analysis.total_years.getD 0
  let over_qual : Option RedFlag :=
    if experience_years > 15 then
      some ⟨"over_qualification", "Very senior candidate - may be overqualified",
            "low", 0.05⟩
    else none
  let penalty_total : ℚ :=
    (if job_hop.isSome then 0.15 else 0) + (if gap.isSome then 0.08 else 0) +
      (if over_qual.isSome then 0.05 else 0)
  let flags_detected := job_hop.toList ++ gap.toList ++ over_qual.toList
  { flags_detected := flags_detected
  , total_penalty := min penalty_total 0.25
  , risk_level := assess_risk_level penalty_total
  , has_concerns := flags_detected.length > 0 }

/-- The `leadership_keywords` list of `experience_quality_indicators`. -/
def leadership_keywords : List String :=
  [ "led team", "managed team", "team lead", "team leader", "managed"
  , "supervised", "mentored", "coached", "directed", "oversaw"
  , "managed developers", "led developers", "tech lead", "technical lead"
  , "project lead", "team management", "people management" ]

/-- The `impact_keywords` list of `experience_quality_indicators`. -/
def impact_keywords : List String :=
  [ "increased", "decreased", "improved", "reduced", "optimized"
  , "enhanced", "boosted", "accelerated", "streamlined", "automated"
  , "delivered", "achieved", "exceeded", "saved", "generated"
  , "performance improvement", "cost reduction", "efficiency gains" ]

/-- The `innovation_keywords` list of `experience_quality_indicators`. -/
def innovation_keywords : List String :=
  [ "created", "developed", "designed", "built", "architected"
  , "implemented", "launched", "introduced", "pioneered", "initiated"
  , "innovative", "cutting-edge", "state-of-the-art", "breakthrough"
  , "patent", "open source", "published", "research", "novel approach" ]

/-- The `scale_keywords` list of `experience_quality_indicators`. -/
def scale_keywords : List String :=
  [ "million users", "thousand users", "large scale", "high volume"
  , "enterprise", "microservices", "distributed", "scalable"
  , "high availability", "load balancing", "performance tuning"
  , "big data", "cloud scale", "global", "enterprise-wide" ]

/-- The technology-introduction patterns of
`_analyze_innovation_indicators`. -/
def tech_intro_patterns : List String :=
  [ "introduced", "migrated to", "adopted", "implemented new"
  , "modernized", "transformed", "revolutionized" ]

/-- Longest digit run at the head of a character list. -/
def takeDigits (cs : List Char) : List Char := cs.takeWhile (fun c => c.isDigit)

/-- Decimal value of a digit run. -/
def digitsToNat (ds : List Char) : ℕ := ds.foldl (fun n c => n * 10 + (c.toNat - 48)) 0

/-- One match attempt of the team-size regex
`team of (\d+)|(\d+) people|(\d+) developers|(\d+) engineers` at the head
of the list: returns the captured number and the remainder after the
match.  This is an explicit realisation of `re.findall`'s leftmost-match
behaviour for this pattern (a shorter digit run can never satisfy a
suffix alternative that the full run does not, so no backtracking is
needed). -/
def teamSizeAt (cs : List Char) : Option (ℕ × List Char) :=
  if ("team of ".toList).isPrefixOf cs then
    let rest := cs.drop 8
    let ds := takeDigits rest
    if ds ≠ [] then some (digitsToNat ds, rest.drop ds.length) else none
  else
    let ds := takeDigits cs
    if ds = [] then none
    else
      let rest := cs.drop ds.length
      if (" people".toList).isPrefixOf rest then some (digitsToNat ds, rest.drop 7)
      else if (" developers".toList).isPrefixOf rest then some (digitsToNat ds, rest.drop 11)
      else if (" engineers".toList).isPrefixOf rest then some (digitsToNat ds, rest.drop 10)
      else none

/-- Left-to-right scan collecting all team-size matches; the fuel (the
input length) dominates the number of scan steps, every match consuming
at least one character. -/
def findTeamSizesAux : ℕ → List Char → List ℕ
  | 0, _ => []
  | _, [] => []
  | fuel + 1, c :: rest =>
    match teamSizeAt (c :: rest) with
    | some (n, after) => n :: findTeamSizesAux fuel after
    | none => findTeamSizesAux fuel rest

/-- All team sizes found in a string, in match order. -/
def find_team_sizes (s : String) : List ℕ := findTeamSizesAux s.toList.length s.toList

/-- `_analyze_leadership_experience`: 10 points per leadership keyword
present, plus `min(maxTeamSize*5, 30)` when the team-size regex matches,
capped at 100. -/
def analyze_leadership_experience (text : String) : ℚ :=
  let text_lower := text.toLower
  let keyword_score : ℚ :=
    10 * ((leadership_keywords.filter (fun k => strContains text_lower k)).length : ℚ)
  let sizes := find_team_sizes text_lower
  let leadership_score :=
    match sizes.max? with
    | some mx => keyword_score + min ((mx : ℚ) * 5) 30
    | none => keyword_score
  min leadership_score 100

/-- Left-to-right count of matches of `(\d+)%` (digit run immediately
followed by a percent sign). -/
def percentCountAux : ℕ → List Char → ℕ
  | 0, _ => 0
  | _, [] => 0
  | fuel + 1, c :: rest =>
    let cs := c :: rest
    match takeDigits cs with
    | [] => percentCountAux fuel rest
    | ds =>
      match cs.drop ds.length with
      | '%' :: after => 1 + percentCountAux fuel after
      | _ => percentCountAux fuel rest

/-- Number of `(\d+)%` matches in a string. -/
def percent_count (s : String) : ℕ := percentCountAux s.toList.length s.toList

/-- One match attempt of the money regex `\$[\d,]+|\d+k|\d+ million` at
the head of the list, returning the remainder after the match. -/
def moneyAt (cs : List Char) : Option (List Char) :=
  match cs with
  | '$' :: rest =>
      let body := rest.takeWhile (fun c => c.isDigit || c = ',')
      if body ≠ [] then some (rest.drop body.length) else none
  | _ =>
      let ds := takeDigits cs
      if ds = [] then none
      else
        let rest := cs.drop ds.length
        match rest with
        | 'k' :: after => some after
        | _ =>
          if (" million".toList).isPrefixOf rest then some (rest.drop 8) else none

/-- Left-to-right count of money-pattern matches. -/
def moneyCountAux : ℕ → List Char → ℕ
  | 0, _ => 0
  | _, [] => 0
  | fuel + 1, c :: rest =>
    match moneyAt (c :: rest) with
    | some after => 1 + moneyCountAux fuel after
    | none => moneyCountAux fuel rest

/-- Number of money-pattern matches in a string. -/
def money_count (s : String) : ℕ := moneyCountAux s.toList.length s.toList

/-- `_analyze_quantified_impact`: 15 points per percentage match, 20 per
money match, 8 per impact keyword present, capped at 100.  (As in the
source, percentages are counted on the original text and money patterns
on the lowered text.) -/
def analyze_quantified_impact (text : String) : ℚ :=
  let text_lower := text.toLower
  let pct := percent_count text
  let mny := money_count text_lower
  let keyword_part : ℚ :=
    8 * ((impact_keywords.filter (fun k => strContains text_lower k)).length : ℚ)
  min ((pct : ℚ) * 15 + (mny : ℚ) * 20 + keyword_part) 100

/-- `_analyze_innovation_indicators`: 10 points per innovation keyword
present plus 12 per technology-introduction pattern present, capped at
100. -/
def analyze_innovation_indicators (text : String) : ℚ :=
  let text_lower := text.toLower
  let kw : ℚ :=
    10 * ((innovation_keywords.filter (fun k => strContains text_lower k)).length : ℚ)
  let ti : ℚ :=
    12 * ((tech_intro_patterns.filter (fun p => strContains text_lower p)).length : ℚ)
  min (kw + ti) 100

/-- `_analyze_scale_experience`: 15 points per scale keyword present,
capped at 100. -/
def analyze_scale_experience (text : String) : ℚ :=
  let text_lower := text.toLower
  min (15 * ((scale_keywords.filter (fun k => strContains text_lower k)).length : ℚ)) 100

/-- True when the string contains a decimal digit (`re.search(r'\d+', s)`). -/
def containsDigit (s : String) : Bool := s.toList.any (fun c => c.isDigit)

/-- `_extract_quantified_achievements`: sentences (split on '.') that
mention an achievement keyword and contain a number, stripped, first
five. -/
def extract_quantified_achievements (text : String) : List String :=
  (((text.splitOn ".").filter (fun sentence =>
      (["increased", "reduced", "improved", "achieved"].any
        (fun k => strContains sentence.toLower k)) && containsDigit sentence)).map
    (fun s => s.trim)).take 5

/-- `_get_experience_quality_tier`. -/
def get_experience_quality_tier (quality_bonus : ℚ) : String :=
  if quality_bonus ≥ 35 then "exceptional"
  else if quality_bonus ≥ 25 then "excellent"
  else if quality_bonus ≥ 15 then "good"
  else if quality_bonus ≥ 5 then "moderate"
  else "basic"

/-- `_calculate_base_experience_score` (scoring_engine.py lines
1096-1113): the fixed staircase over `relevant_years` against
`min_required`, with 85 when no minimum is specified. -/
def calculate_base_experience_score (relevant_years min_required : ℚ) : ℚ :=
  if min_required = 0 then 85
  else if relevant_years ≥ min_required + 3 then 95
  else if relevant_years ≥ min_required + 1 then 90
  else if relevant_years ≥ min_required then 85
  else if relevant_years ≥ min_required * 0.8 then 75
  else if relevant_years ≥ min_required * 0.6 then 65
  else 45

/-- The text scanned by the experience-quality heuristics: the
concatenation, per work entry, of the title and the Python `str(...)`
renderings of the achievement and technology lists. -/
def experience_text (work_history : List WorkEntry) : String :=
  String.intercalate " " (work_history.map (fun j =>
    j.title ++ " " ++ pyReprList j.key_achievements ++ " " ++
      pyReprList j.technologies_used))

/-- The nested `analysis` dictionary of the experience-scoring result. -/
structure ExpAnalysisOut where
  years_gap : ℚ
  quality_indicators_found : ℕ
  experience_quality_tier : String
deriving DecidableEq

/-- Result of `_score_enhanced_experience`. -/
structure ExperienceScoring where
  score : ℚ
  base_score : ℚ
  quality_bonus : ℚ
  leadership_score : ℚ
  impact_score : ℚ
  innovation_score : ℚ
  scale_score : ℚ
  quantified_achievements : List String
  analysis : ExpAnalysisOut
deriving DecidableEq

/-- `_score_enhanced_experience`: staircase base score plus the four
individually capped quality bonuses, final score capped at 100. -/
def score_enhanced_experience (resume : ResumeProfile) (job : JobProfile) :
    ExperienceScoring :=
  let total_years := resume.experience_analysis.total_years.getD 0
  let relevant_years0 := resume.experience_analysis.relevant_years.getD 0
  let relevant_years := if relevant_years0 = 0 then total_years else relevant_years0
  let min_required := job.minimum_experience.getD 0
  let base_score := calculate_base_experience_score relevant_years min_required
  let text := experience_text resume.work_history
  let leadership_score := analyze_leadership_experience text
  let impact_score := analyze_quantified_impact text
  let innovation_score := analyze_innovation_indicators text
  let scale_score := analyze_scale_experience text
  let leadership_bonus := min (leadership_score * 0.3) 15
  let impact_bonus := min (impact_score * 0.25) 12
  let innovation_bonus := min (innovation_score * 0.2) 10
  let scale_bonus := min (scale_score * 0.15) 8
  let total_quality_bonus := leadership_bonus + impact_bonus + innovation_bonus + scale_bonus
  let enhanced_score := min (base_score + total_quality_bonus) 100
  { score := enhanced_score
  , base_score := base_score
  , quality_bonus := total_quality_bonus
  , leadership_score := leadership_score
  , impact_score := impact_score
  , innovation_score := innovation_score
  , scale_score := scale_score
  , quantified_achievements := extract_quantified_achievements text
  , analysis :=
    { years_gap := relevant_years - min_required
    , quality_indicators_found :=
        (if leadership_bonus > 0 then 1 else 0) + (if impact_bonus > 0 then 1 else 0) +
          (if innovation_bonus > 0 then 1 else 0) + (if scale_bonus > 0 then 1 else 0)
    , experience_quality_tier := get_experience_quality_tier total_quality_bonus } }

/-- The candidate-side degree-level ordinal (`degree_levels.get(level, 0)`
with Bachelor 3, Master 4, PhD 5). -/
def degree_level_value (level : String) : ℕ :=
  if level = "Bachelor\u0027s" then 3
  else if level = "Master\u0027s" then 4
  else if level = "PhD" then 5
  else 0

/-- The requirement-side degree-level ordinal
(`degree_levels.get(required_degree, 3)` defaults to 3). -/
def degree_level_required (level : String) : ℕ :=
  if level = "Bachelor\u0027s" then 3
  else if level = "Master\u0027s" then 4
  else if level = "PhD" then 5
  else 3

/-- Python's `max(degrees, key=...)`: first maximal element under the
degree-level ordinal. -/
def highest_degree_of (hd : Degree) (tl : List Degree) : Degree :=
  tl.foldl (fun b d => if degree_level_value d.level > degree_level_value b.level then d else b)
    hd

/-- Result of `_score_education_match`. -/
structure EducationScoring where
  score : ℚ
  degree_score : ℚ
  certification_score : ℚ
  matched_certifications : ℕ
  total_certifications : ℕ
deriving DecidableEq

/-- `_score_education_match`: degree adequacy against the required level
(70 when adequate, a linearly decaying partial score otherwise, 50 for a
degree when none is required, 10/70 when no degree is held), a +20
field-of-study bonus, and a certification component worth up to 30 scaled
by the matched fraction; total capped at 100. -/
def score_education_match (resume : ResumeProfile) (job : JobProfile) : EducationScoring :=
  let education_data := resume.education
  let job_education := job.education_requirements
  let candidate_degrees := education_data.degrees
  let candidate_certs := education_data.certifications
  let required_degree_truthy : Bool :=
    match job_education.required_degree with
    | some s => s != ""
    | none => false
  let required_field := job_education.field_of_study
  let required_certs := job_education.certifications
  let education_score : ℚ :=
    match candidate_degrees with
    | [] => if required_degree_truthy then 10 else 70
    | hd :: tl =>
      let highest_degree := highest_degree_of hd tl
      let candidate_level := degree_level_value highest_degree.level
      let degree_part : ℚ :=
        if required_degree_truthy then
          let required_level := degree_level_required ((job_education.required_degree).getD "")
          if candidate_level ≥ required_level then 70
          else max 0 (40 - ((required_level : ℚ) - (candidate_level : ℚ)) * 15)
        else 50
      let field_bonus : ℚ :=
        if required_field ≠ [] then
          let candidate_field := ((highest_degree.field).getD "").toLower
          if required_field.any (fun f => f ≠ "" && strContains candidate_field f.toLower)
          then 20 else 0
        else 0
      degree_part + field_bonus
  let cert_names :=
    candidate_certs.filterMap (fun c =>
      match c.name with
      | some n => if n ≠ "" then some n.toLower else none
      | none => none)
  let cert_score : ℚ :=
    if required_certs ≠ [] ∧ candidate_certs ≠ [] then
      let matched_certs :=
        (required_certs.filter (fun req =>
          req ≠ "" && cert_names.any (fun cn => strContains cn req.toLower))).length
      ((matched_certs : ℚ) / (required_certs.length : ℚ)) * 30
    else 0
  let final_score := min 100 (education_score + cert_score)
  { score := final_score
  , degree_score := education_score
  , certification_score := cert_score
  , matched_certifications :=
      (candidate_certs.filter (fun c =>
        match c.name with
        | some n =>
            n ≠ "" && required_certs.any (fun req =>
              req ≠ "" && strContains n.toLower req.toLower)
        | none => false)).length
  , total_certifications := candidate_certs.length }

/-- Result of `_score_enhanced_additional_qualifications`. -/
structure AdditionalScoring where
  score : ℚ
  soft_skills_count : ℕ
  has_leadership : Bool
  innovation_count : ℕ
  project_count : ℕ
  resume_quality : ℚ
deriving DecidableEq

/-- `_score_enhanced_additional_qualifications`: base 50 adjusted by
resume quality, soft-skill count, leadership, innovation indicators and
project portfolio, clamped to [0, 100]. -/
def score_enhanced_additional_qualifications (resume : ResumeProfile) : AdditionalScoring :=
  let quality_score := (resume.resume_quality.overall_quality).getD 50
  let soft_skills :=
    (((resume.skills_by_category).find? (fun p => p.1 = "soft_skills")).map (·.2)).getD []
  let innovations := resume.career_insights.innovation_indicators
  let projects := resume.projects
  let has_leadership := resume.leadership_indicators.has_leadership_experience
  let score : ℚ :=
    50 + (quality_score - 50) * 0.3
      + (if soft_skills.length ≥ 3 then 15 else if soft_skills.length ≥ 1 then 10 else 0)
      + (if has_leadership then 15 else 0)
      + (if innovations ≠ [] then min 10 ((innovations.length : ℚ) * 3) else 0)
      + (if projects.length ≥ 2 then 10 else 0)
  { score := min 100 (max 0 score)
  , soft_skills_count := soft_skills.length
  , has_leadership := has_leadership
  , innovation_count := innovations.length
  , project_count := projects.length
  , resume_quality := quality_score }

/-- The role-specific multipliers of `_get_role_weight_adjustments`. -/
structure RoleAdjust where
  skills_multiplier : ℚ
  experience_multiplier : ℚ
  education_multiplier : ℚ
  additional_multiplier : ℚ
deriving DecidableEq

/-- `_get_role_weight_adjustments`: per-role multipliers for the four
top-level scoring pillars (all-1.0 default for unknown roles). -/
def get_role_weight_adjustments (detected_role : String) : RoleAdjust :=
  if detected_role = "frontend_developer" then ⟨1.3, 0.9, 0.8, 1.2⟩
  else if detected_role = "backend_developer" then ⟨1.2, 1.1, 1.0, 0.9⟩
  else if detected_role = "fullstack_developer" then ⟨1.1, 1.1, 0.9, 1.0⟩
  else if detected_role = "devops_engineer" then ⟨1.4, 1.2, 0.7, 0.8⟩
  else if detected_role = "data_scientist" then ⟨1.1, 1.0, 1.4, 1.1⟩
  else if detected_role = "mobile_developer" then ⟨1.3, 1.0, 0.9, 1.2⟩
  else ⟨1.0, 1.0, 1.0, 1.0⟩

/-- `_calculate_role_fit_score`: mean of the skills/experience/education
scores after role-specific multipliers, capped at 100. -/
def calculate_role_fit_score (role : String) (required_skills_score experience_score
    education_score : ℚ) : ℚ :=
  let multipliers : ℚ × ℚ × ℚ :=
    if role = "frontend_developer" then (1.2, 0.9, 0.8)
    else if role = "data_scientist" then (1.1, 1.0, 1.3)
    else if role = "devops_engineer" then (1.3, 1.1, 0.7)
    else (1.0, 1.0, 1.0)
  let adjusted_skills := required_skills_score * multipliers.1
  let adjusted_experience := experience_score * multipliers.2.1
  let adjusted_education := education_score * multipliers.2.2
  min 100 ((adjusted_skills + adjusted_experience + adjusted_education) / 3)

/-- The per-pillar weighted contributions reported for transparency. -/
structure WeightedContributions where
  skills_contribution : ℚ
  experience_contribution : ℚ
  education_contribution : ℚ
  additional_contribution : ℚ
deriving DecidableEq

/-- Result of `_calculate_enhanced_weighted_scores`. -/
structure FinalScores where
  overall_score : ℚ
  base_score : ℚ
  red_flag_penalty : ℚ
  role_fit_score : ℚ
  required_skills : ℚ
  experience : ℚ
  education : ℚ
  additional_qualifications : ℚ
  detected_role : String
  role_adjustments : RoleAdjust
  adjusted_weights : ℚ × ℚ × ℚ × ℚ
  weighted_contributions : WeightedContributions
deriving DecidableEq

/-- `_calculate_enhanced_weighted_scores` (scoring_engine.py lines
1298-1355): apply the role multipliers to the base pillar weights
(0.40/0.30/0.20/0.10), normalize them to sum to 1, take the weighted sum
of the four pillar scores, apply the multiplicative red-flag penalty, and
clamp the overall score into [0, 100]. -/
def calculate_enhanced_weighted_scores (required_skills experience education additional : ℚ)
    (red_flag_analysis : RedFlagAnalysis) (detected_role : String) : FinalScores :=
  let role_adjustments := get_role_weight_adjustments detected_role
  let w_skills := 0.40 * role_adjustments.skills_multiplier
  let w_experience := 0.30 * role_adjustments.experience_multiplier
  let w_education := 0.20 * role_adjustments.education_multiplier
  let w_additional := 0.10 * role_adjustments.additional_multiplier
  let total_weight := w_skills + w_experience + w_education + w_additional
  let nw_skills := if total_weight > 0 then w_skills / total_weight else w_skills
  let nw_experience := if total_weight > 0 then w_experience / total_weight else w_experience
  let nw_education := if total_weight > 0 then w_education / total_weight else w_education
  let nw_additional := if total_weight > 0 then w_additional / total_weight else w_additional
  let overall_score :=
    required_skills * nw_skills + experience * nw_experience + education * nw_education +
      additional * nw_additional
  let red_flag_penalty := red_flag_analysis.total_penalty
  let penalty_adjusted_score := overall_score * (1 - red_flag_penalty)
  { overall_score := min 100 (max 0 penalty_adjusted_score)
  , base_score := overall_score
  , red_flag_penalty := red_flag_penalty
  , role_fit_score := calculate_role_fit_score detected_role required_skills experience education
  , required_skills := required_skills
  , experience := experience
  , education := education
  , additional_qualifications := additional
  , detected_role := detected_role
  , role_adjustments := role_adjustments
  , adjusted_weights := (nw_skills, nw_experience, nw_education, nw_additional)
  , weighted_contributions :=
    { skills_contribution := required_skills * nw_skills
    , experience_contribution := experience * nw_experience
    , education_contribution := education * nw_education
    , additional_contribution := additional * nw_additional } }

/-- Python's `str.title()` for the ASCII strings interpolated by the
insight generator: the first character of each alphabetic run is
uppercased, the rest lowercased. -/
def titleCase (s : String) : String :=
  ((s.toList.foldl (fun (acc : List Char × Bool) c =>
      (acc.1 ++ [if acc.2 then c.toLower else c.toUpper], c.isAlpha)) ([], false)).1).asString

/-- Python's rendering of a number inside an f-string.  The scoring
engine only interpolates integral values here; non-integral rationals
fall back to the canonical rational rendering (a documented deviation
from CPython's decimal float rendering, unused by the theorems). -/
def pyNum (q : ℚ) : String :=
  if q.den = 1 then toString q.num else toString q

/-- Result of `_generate_enhanced_insights`. -/
structure Insights where
  strengths : List String
  concerns : List String
  detailed_analysis : String
  role_strengths : List String
  role_gaps : List String
deriving DecidableEq

/-- `_generate_enhanced_insights`: strengths and concerns assembled in
source order (each truncated to five), plus the templated detailed
analysis (the f-string is reproduced verbatim, including its trailing
space after "proficiency levels." and the final `.strip()`).  The
resume/job arguments are accepted but, as in the source, only feed the
constant role-specific placeholder lists. -/
def generate_enhanced_insights (_resume : ResumeProfile) (_job : JobProfile)
    (skills_scoring : SkillsScoring) (experience_scoring : ExperienceScoring) : Insights :=
  let matched_skills := skills_scoring.total_matched
  let relationship_bonuses := skills_scoring.relationship_bonuses
  let leadership_score := experience_scoring.leadership_score
  let impact_score := experience_scoring.impact_score
  let years_gap := experience_scoring.analysis.years_gap
  let strengths : List String :=
    (if matched_skills ≥ 8 then
      ["Strong technical match with " ++ toString matched_skills ++ " required skills"]
     else [])
    ++ (if relationship_bonuses ≠ [] then
          let bonus_descriptions :=
            (relationship_bonuses.filter (fun b => b.2 > 0.1)).map
              (fun b => titleCase (b.1.replace "_" " "))
          if bonus_descriptions ≠ [] then
            ["Technology stack synergies: " ++ String.intercalate ", " bonus_descriptions]
          else []
        else [])
    ++ (if leadership_score > 60 then
          ["Demonstrated leadership and team management experience"] else [])
    ++ (if impact_score > 50 then
          ["Track record of quantifiable business impact"] else [])
  let concerns : List String :=
    ((skills_scoring.missing_critical.take 3).map
      (fun mr => "Missing critical skill: " ++ mr.skill))
    ++ (if years_gap < -1 then
          ["Below required experience level by " ++ pyNum |years_gap| ++ " years"] else [])
  let quality_tier := experience_scoring.analysis.experience_quality_tier
  let detailed_analysis :=
    ("\n" ++ "Enhanced Candidate Analysis:" ++ "\n\n" ++
      "Technical Competency: " ++ toString matched_skills ++ " required skills matched with " ++
      (if matched_skills ≥ 6 then "strong" else "moderate") ++ " proficiency levels. " ++ "\n" ++
      (if relationship_bonuses ≠ [] then "Advanced technology stack combinations identified."
       else "Standard skill set without notable synergies.") ++ "\n\n" ++
      "Experience Quality: " ++ titleCase quality_tier ++ " tier experience with " ++
      (if leadership_score > 40 ∨ impact_score > 40 then
        "quantifiable impact and leadership indicators"
       else "standard professional background") ++ "." ++ "\n\n" ++
      "Role Alignment: " ++
      (if matched_skills ≥ 8 ∧ years_gap ≥ 0 then "Excellent"
       else if matched_skills ≥ 5 then "Good" else "Limited") ++
      " alignment with position requirements." ++ "\n\n" ++
      "Overall Assessment: " ++
      (if concerns.length ≤ 2 ∧ matched_skills ≥ 6 then
        "Strong candidate recommended for interview"
       else if concerns.length ≤ 4 then "Moderate fit requiring careful evaluation"
       else "Below requirements for this position") ++ "." ++ "\n        ").trim
  { strengths := strengths.take 5
  , concerns := concerns.take 5
  , detailed_analysis := detailed_analysis
  , role_strengths := ["Role-specific analysis would be implemented here"]
  , role_gaps := ["Role-specific gap analysis would be implemented here"] }

/-- `_get_enhanced_recommendation`. -/
def get_enhanced_recommendation (overall_score : ℚ) : String :=
  if overall_score ≥ 90 then "🌟 Exceptional candidate - Immediate interview strongly recommended"
  else if overall_score ≥ 80 then "⭐ Strong candidate - High priority for interview"
  else if overall_score ≥ 70 then "✅ Good candidate - Recommend for interview"
  else if overall_score ≥ 60 then "⚠️ Moderate fit - Review carefully, consider phone screen"
  else if overall_score ≥ 45 then "❌ Below requirements - Consider only if candidate pool is limited"
  else "🚫 Poor fit - Not recommended for this position"

/-- `_get_highest_education`: level of the first degree maximal under the
1/2/3 ordinal, `none` when no degree is present. -/
def get_highest_education (education : EducationData) : Option String :=
  match education.degrees with
  | [] => none
  | hd :: tl =>
    let levels := fun (l : String) =>
      if l = "Bachelor\u0027s" then 1 else if l = "Master\u0027s" then 2
      else if l = "PhD" then 3 else 0
    some ((tl.foldl (fun b d => if levels d.level > levels b.level then d else b) hd).level)

/-- Round-half-to-even to an integer, the rounding CPython's `round`
performs (modelled on exact rationals; binary-float representation
artefacts of CPython are outside the model). -/
def round_half_even (x : ℚ) : ℤ :=
  let f := Int.floor x
  let frac := x - f
  if frac < 1/2 then f
  else if 1/2 < frac then f + 1
  else if f % 2 = 0 then f else f + 1

/-- Python's `round(x, ndigits)` on exact rationals. -/
def py_round (x : ℚ) (ndigits : ℕ) : ℚ :=
  let p : ℚ := (10 : ℚ) ^ ndigits
  ((round_half_even (x * p) : ℚ)) / p

/-- The wall-clock observations the pipeline makes: `datetime.now()` at
entry, `datetime.now()` when computing the processing time, and
`datetime.now().isoformat()` for the metadata timestamp. -/
structure Clock where
  started : ℚ
  finished : ℚ
  now_iso : String
deriving DecidableEq

/-- The `enhanced_skill_analysis` block of the result. -/
structure EnhancedSkillAnalysis where
  matched_skills : List MatchRec
  missing_critical : List MissingRec
  skill_categories_coverage : List (String × ℚ)
  proficiency_breakdown : ℚ
  synonym_matches : List SynRec
  skill_relationship_bonuses : List (String × ℚ)
  role_weights_applied : List (String × ℚ)
  detected_role : String
deriving DecidableEq

/-- The `experience_quality_analysis` block of the result. -/
structure ExperienceQualityAnalysis where
  base_experience_score : ℚ
  quality_bonus : ℚ
  leadership_score : ℚ
  impact_score : ℚ
  innovation_score : ℚ
  scale_score : ℚ
  quantified_achievements : List String
  experience_quality_tier : String
deriving DecidableEq

/-- The `red_flag_analysis` block of the result. -/
structure RedFlagReport where
  flags_detected : List RedFlag
  risk_level : String
  penalty_applied : ℚ
  has_concerns : Bool
deriving DecidableEq

/-- The `candidate_insights` block of the result. -/
structure CandidateInsights where
  career_level : String
  career_trajectory : String
  specializations : List String
  skill_diversity : ℚ
  resume_quality : ℚ
  role_fit_score : ℚ
deriving DecidableEq

/-- The `role_specific_insights` block of the result. -/
structure RoleSpecificInsights where
  role_strengths : List String
  role_gaps : List String
deriving DecidableEq

/-- The `candidate_info` block of the result. -/
structure CandidateInfo where
  name : Option String
  email : Option String
  phone : Option String
  linkedin : Option String
  location : Option String
  years_experience : Option ℚ
  relevant_experience : Option ℚ
  education_level : Option String
  current_level : Option String
deriving DecidableEq

/-- The `score_breakdown` block of the result. -/
structure ScoreBreakdown where
  required_skills : ℚ
  experience_level : ℚ
  education : ℚ
  additional_qualifications : ℚ
deriving DecidableEq

/-- The `processing_metadata` block of the result. -/
structure ProcessingMetadata where
  processing_time_seconds : ℚ
  ai_provider : String
  analysis_version : String
  timestamp : String
  features_applied : List String
deriving DecidableEq

/-- The full result dictionary of `score_resume_against_job`. -/
structure ScoreResult where
  filename : String
  overall_score : ℚ
  recommendation : String
  score_breakdown : ScoreBreakdown
  enhanced_skill_analysis : EnhancedSkillAnalysis
  experience_quality_analysis : ExperienceQualityAnalysis
  red_flag_analysis : RedFlagReport
  candidate_insights : CandidateInsights
  key_strengths : List String
  areas_of_concern : List String
  justification : String
  role_specific_insights : RoleSpecificInsights
  candidate_info : CandidateInfo
  processing_metadata : ProcessingMetadata
deriving DecidableEq

/-- `score_resume_against_job`, starting from an already-extracted resume
profile (the AI-backed extraction of the raw text is the external
collaborator upstream of the scoring core).  The wall clock enters the
computation only through `processing_metadata`. -/
def score_resume_against_job (resume : ResumeProfile) (job : JobProfile)
    (filename : String) (clock : Clock) : ScoreResult :=
  let detected_role := detect_role_type job
  let skills_scoring :=
    score_enhanced_skills_match resume.skills_by_category job.required_skills detected_role
  let experience_scoring := score_enhanced_experience resume job
  let education_scoring := score_education_match resume job
  let additional_scoring := score_enhanced_additional_qualifications resume
  let red_flag_analysis := detect_red_flags resume
  let final_scores :=
    calculate_enhanced_weighted_scores skills_scoring.score experience_scoring.score
      education_scoring.score additional_scoring.score red_flag_analysis detected_role
  let insights := generate_enhanced_insights resume job skills_scoring experience_scoring
  let processing_time := clock.finished - clock.started
  { filename := filename
  , overall_score := py_round final_scores.overall_score 1
  , recommendation := get_enhanced_recommendation final_scores.overall_score
  , score_breakdown :=
    { required_skills := py_round skills_scoring.score 1
    , experience_level := py_round experience_scoring.score 1
    , education := py_round education_scoring.score 1
    , additional_qualifications := py_round additional_scoring.score 1 }
  , enhanced_skill_analysis :=
    { matched_skills := skills_scoring.matched_skills
    , missing_critical := skills_scoring.missing_critical
    , skill_categories_coverage := skills_scoring.category_coverage
    , proficiency_breakdown := skills_scoring.proficiency_score
    , synonym_matches := skills_scoring.synonym_matches
    , skill_relationship_bonuses := skills_scoring.relationship_bonuses
    , role_weights_applied := skills_scoring.role_weights_applied
    , detected_role := detected_role }
  , experience_quality_analysis :=
    { base_experience_score := experience_scoring.base_score
    , quality_bonus := experience_scoring.quality_bonus
    , leadership_score := experience_scoring.leadership_score
    , impact_score := experience_scoring.impact_score
    , innovation_score := experience_scoring.innovation_score
    , scale_score := experience_scoring.scale_score
    , quantified_achievements := experience_scoring.quantified_achievements
    , experience_quality_tier := experience_scoring.analysis.experience_quality_tier }
  , red_flag_analysis :=
    { flags_detected := red_flag_analysis.flags_detected
    , risk_level := red_flag_analysis.risk_level
    , penalty_applied := red_flag_analysis.total_penalty
    , has_concerns := red_flag_analysis.has_concerns }
  , candidate_insights :=
    { career_level := (resume.experience_analysis.current_level).getD "unknown"
    , career_trajectory := (resume.career_insights.career_trajectory).getD "unknown"
    , specializations := resume.career_insights.specializations
    , skill_diversity := (resume.skill_diversity_score).getD 0
    , resume_quality := (resume.resume_quality.overall_quality).getD 0
    , role_fit_score := final_scores.role_fit_score }
  , key_strengths := insights.strengths
  , areas_of_concern := insights.concerns
  , justification := insights.detailed_analysis
  , role_specific_insights :=
    { role_strengths := insights.role_strengths
    , role_gaps := insights.role_gaps }
  , candidate_info :=
    { name := resume.contact_info.name
    , email := resume.contact_info.email
    , phone := resume.contact_info.phone
    , linkedin := resume.contact_info.linkedin
    , location := resume.contact_info.location
    , years_experience := resume.experience_analysis.total_years
    , relevant_experience := resume.experience_analysis.relevant_years
    , education_level := get_highest_education resume.education
    , current_level := resume.experience_analysis.current_level }
  , processing_metadata :=
    { processing_time_seconds := py_round processing_time 2
    , ai_provider := "google_gemini_enhanced"
    , analysis_version := "enterprise_3.0"
    , timestamp := clock.now_iso
    , features_applied :=
      [ "skill_intelligence", "role_specific_weighting", "experience_quality_analysis"
      , "red_flag_detection", "enhanced_insights" ] } }

/-- Replace the processing metadata by a fixed placeholder; the remaining
fields are exactly the score-bearing payload of a `ScoreResult`. -/
def strip_processing_metadata (r : ScoreResult) : ScoreResult :=
  { r with processing_metadata := ⟨0, "", "", "", []⟩ }

/-- One submitted resume of a batch together with the outcome of its
scoring attempt.  The per-resume call of the batch loop is the AI-backed
`score_resume_against_job` invocation, which can raise; an `Except.error`
models such an exception with its message, an `Except.ok` the returned
score result. -/
structure BatchItem where
  filename : String
  outcome : Except String ScoreResult

/-- An entry of the batch `results` list: a full score result, or the
error record the batch loop substitutes on failure (which carries the
filename, the error marker, `overall_score = 0`, the fixed failure
recommendation and the placeholder candidate name — all of which are
determined by the two constructor arguments). -/
inductive BatchEntry where
  | ok (r : ScoreResult)
  | failed (filename : String) (error_message : String)
deriving DecidableEq

/-- `entry.get("overall_score", 0)`: error records carry a zero score. -/
def entry_score : BatchEntry → ℚ
  | .ok r => r.overall_score
  | .failed _ _ => 0

/-- The record appended to `results` for one processed resume. -/
def mk_batch_entry (item : BatchItem) : BatchEntry :=
  match item.outcome with
  | .ok r => .ok r
  | .error e => .failed item.filename e

/-- `result.get("enhanced_skill_analysis", {}).get("detected_role",
"unknown")`. -/
def entry_detected_role : BatchEntry → String
  | .ok r => r.enhanced_skill_analysis.detected_role
  | .failed _ _ => "unknown"

/-- Python dict counter increment `m[k] = m.get(k, 0) + 1`. -/
def bump_count (m : List (String × ℕ)) (k : String) : List (String × ℕ) :=
  if m.any (fun p => p.1 = k) then m.map (fun p => if p.1 = k then (k, p.2 + 1) else p)
  else m ++ [(k, 1)]

/-- `_analyze_role_distribution`. -/
def analyze_role_distribution (results : List BatchEntry) : List (String × ℕ) :=
  results.foldl (fun m r => bump_count m (entry_detected_role r)) []

/-- Result of `_analyze_skill_intelligence_impact`. -/
structure SkillIntelligenceImpact where
  total_synonym_matches : ℕ
  total_relationship_bonuses : ℕ
  intelligence_utilization : String
deriving DecidableEq

/-- `_analyze_skill_intelligence_impact` (error records contribute the
empty default). -/
def analyze_skill_intelligence_impact (results : List BatchEntry) : SkillIntelligenceImpact :=
  let syn := (results.map (fun r =>
    match r with
    | .ok sr => sr.enhanced_skill_analysis.synonym_matches.length
    | .failed _ _ => 0)).sum
  let rel := (results.map (fun r =>
    match r with
    | .ok sr => sr.enhanced_skill_analysis.skill_relationship_bonuses.length
    | .failed _ _ => 0)).sum
  ⟨syn, rel, if syn + rel > results.length then "high" else "moderate"⟩

/-- `_analyze_quality_tiers` (simplified in the source to counting every
entry as "basic"). -/
def analyze_quality_tiers (results : List BatchEntry) : List (String × ℕ) :=
  results.foldl (fun m _ => bump_count m "basic") []

/-- The `score_distribution` block of the batch result. -/
structure ScoreDistribution where
  excellent_90_plus : ℕ
  good_70_89 : ℕ
  moderate_50_69 : ℕ
  poor_below_50 : ℕ
deriving DecidableEq

/-- The batch result of `score_multiple_resumes`. -/
structure BatchResult where
  total_resumes : ℕ
  processed_successfully : ℕ
  failed_resumes : ℕ
  results : List BatchEntry
  top_candidates : List BatchEntry
  processing_time_seconds : ℚ
  average_score : ℚ
  score_distribution : ScoreDistribution
  role_distribution : List (String × ℕ)
  skill_intelligence_impact : SkillIntelligenceImpact
  quality_tier_distribution : List (String × ℕ)
  timestamp : String
deriving DecidableEq

/-- `score_multiple_resumes` (scoring_engine.py lines 1647-1713): one
entry per submitted resume (failures caught per resume and recorded with
a zero score and the error marker), results sorted by score descending
(stably, as Python's `sort`), and the analytics computed over the scores
strictly greater than zero (`valid_scores`). -/
def score_multiple_resumes (items : List BatchItem) (clock : Clock) : BatchResult :=
  let results0 := items.map mk_batch_entry
  let successful_count := (items.filter (fun i => i.outcome.isOk)).length
  let results := results0.mergeSort (fun a b => decide (entry_score b ≤ entry_score a))
  let valid_scores := (results.filter (fun r => decide (entry_score r > 0))).map entry_score
  let processing_time := clock.finished - clock.started
  { total_resumes := items.length
  , processed_successfully := successful_count
  , failed_resumes := items.length - successful_count
  , results := results
  , top_candidates := (results.take 5).filter (fun r => decide (entry_score r > 0))
  , processing_time_seconds := py_round processing_time 2
  , average_score :=
      if valid_scores ≠ [] then py_round (valid_scores.sum / (valid_scores.length : ℚ)) 1
      else 0
  , score_distribution :=
    { excellent_90_plus := valid_scores.countP (fun s => decide (s ≥ 90))
    , good_70_89 := valid_scores.countP (fun s => decide (70 ≤ s ∧ s < 90))
    , moderate_50_69 := valid_scores.countP (fun s => decide (50 ≤ s ∧ s < 70))
    , poor_below_50 := valid_scores.countP (fun s => decide (s < 50)) }
  , role_distribution := analyze_role_distribution results
  , skill_intelligence_impact := analyze_skill_intelligence_impact results
  , quality_tier_distribution := analyze_quality_tiers results
  , timestamp := clock.now_iso }

/-- Bounds of the final clamp `min(100, max(0, x))`. -/
lemma min_max_clamp_bounds (x : ℚ) : 0 ≤ min 100 (max 0 x) ∧ min 100 (max 0 x) ≤ 100 :=
  ⟨le_min (by norm_num) (le_max_left 0 x), min_le_left _ _⟩

/-- C1: for every combination of the four pillar scores and every red-flag
penalty in [0, 0.25], the overall score produced by the final
weighted-score aggregation (`_calculate_enhanced_weighted_scores`) lies
within [0, 100]. -/
theorem C1_overall_score_within_bounds
    (required_skills experience education additional : ℚ)
    (flags : List RedFlag) (penalty : ℚ) (risk : String) (concerns : Bool)
    (detected_role : String) (h0 : 0 ≤ penalty) (h1 : penalty ≤ 0.25) :
    0 ≤ (calculate_enhanced_weighted_scores required_skills experience education additional
        ⟨flags, penalty, risk, concerns⟩ detected_role).overall_score ∧
      (calculate_enhanced_weighted_scores required_skills experience education additional
        ⟨flags, penalty, risk, concerns⟩ detected_role).overall_score ≤ 100 :=
  min_max_clamp_bounds _

/-- C1 witness: the bounds instantiated at a concrete scoring input. -/
theorem C1_overall_score_within_bounds_witness :
    0 ≤ (calculate_enhanced_weighted_scores 50 60 70 80 ⟨[], 0.1, "low", true⟩
        "backend_developer").overall_score ∧
      (calculate_enhanced_weighted_scores 50 60 70 80 ⟨[], 0.1, "low", true⟩
        "backend_developer").overall_score ≤ 100 :=
  C1_overall_score_within_bounds 50 60 70 80 [] 0.1 "low" true "backend_developer"
    (by norm_num) (by norm_num)

/-- C2: the per-skill match score of a matched required skill equals
`min((proficiencyBaseScore + yearsBonus) * matchTypeMultiplier, 100)` with
the proficiency bases expert 100 / advanced 90 / intermediate 80 /
beginner 60, `yearsBonus = min(years*2, 10)` and multipliers exact 1.0 /
synonym 0.95 / related 0.85; in particular a job requiring ["python"]
matched by an expert candidate with 5 years yields category score 100. -/
theorem C2_per_skill_match_score_formula (years : ℚ) (t : MatchType) :
    match_final_score "expert" years t =
        min ((100 + min (years * 2) 10) * type_modifier t) 100
  ∧ match_final_score "advanced" years t =
        min ((90 + min (years * 2) 10) * type_modifier t) 100
  ∧ match_final_score "intermediate" years t =
        min ((80 + min (years * 2) 10) * type_modifier t) 100
  ∧ match_final_score "beginner" years t =
        min ((60 + min (years * 2) 10) * type_modifier t) 100
  ∧ type_modifier MatchType.exact = 1
  ∧ type_modifier MatchType.syn = 0.95
  ∧ type_modifier MatchType.related = 0.85
  ∧ (match_skills_with_intelligence
      [SkillItem.obj (some "python") (some "expert") (some 5)]
      ["python"] "programming_languages").score = 100 := by
  refine ⟨?_, ?_, ?_, ?_, rfl, rfl, rfl, ?_⟩
  · simp [match_final_score, proficiency_base_score]
  · simp [match_final_score, proficiency_base_score]
  · simp [match_final_score, proficiency_base_score]
  · simp [match_final_score, proficiency_base_score]
  · with_unfolding_all rfl

/-- C6: the base experience score is the fixed staircase over
`relevant_years` against `minimum_experience` (95 / 90 / 85 / 75 / 65 /
45), and 85 when no minimum is specified. -/
theorem C6_base_experience_staircase (relevant_years min_required : ℚ)
    (hry : 0 ≤ relevant_years) (hmr : 0 ≤ min_required) :
    (min_required = 0 →
      calculate_base_experience_score relevant_years min_required = 85)
  ∧ (0 < min_required → min_required + 3 ≤ relevant_years →
      calculate_base_experience_score relevant_years min_required = 95)
  ∧ (0 < min_required → min_required + 1 ≤ relevant_years →
      relevant_years < min_required + 3 →
      calculate_base_experience_score relevant_years min_required = 90)
  ∧ (0 < min_required → min_required ≤ relevant_years →
      relevant_years < min_required + 1 →
      calculate_base_experience_score relevant_years min_required = 85)
  ∧ (0 < min_required → min_required * 0.8 ≤ relevant_years →
      relevant_years < min_required →
      calculate_base_experience_score relevant_years min_required = 75)
  ∧ (0 < min_required → min_required * 0.6 ≤ relevant_years →
      relevant_years < min_required * 0.8 →
      calculate_base_experience_score relevant_years min_required = 65)
  ∧ (0 < min_required → relevant_years < min_required * 0.6 →
      calculate_base_experience_score relevant_years min_required = 45) := by
  refine ⟨?_, ?_, ?_, ?_, ?_, ?_, ?_⟩ <;>
    · intros
      simp only [calculate_base_experience_score]
      split_ifs <;> first | rfl | linarith

/-- C6 witness: the staircase instantiated at concrete inputs. -/
theorem C6_base_experience_staircase_witness :
    calculate_base_experience_score 9 5 = 95 ∧
      calculate_base_experience_score 3 0 = 85 ∧
      calculate_base_experience_score 4 5 = 75 :=
  ⟨(C6_base_experience_staircase 9 5 (by norm_num) (by norm_num)).2.1 (by norm_num)
      (by norm_num),
   (C6_base_experience_staircase 3 0 (by norm_num) (by norm_num)).1 rfl,
   (C6_base_experience_staircase 4 5 (by norm_num) (by norm_num)).2.2.2.2.1 (by norm_num)
      (by norm_num) (by norm_num)⟩

/-- C3: a category with requirements but zero declared candidate skills
scores the importance-tiered floor (0 when the role weight is at least
0.25, 10 when it is at least 0.15 but below 0.25, 50 below that), and
every required skill of the category is recorded missing, flagged
critical exactly when the weight is at least 0.25. -/
theorem C3_zero_skill_category_tiered_floor
    (skills_by_category : List (String × List SkillItem))
    (required_skills_map : List (String × List String))
    (category : String) (weight : ℚ) (hw : 0 < weight)
    (hreq : ((required_skills_map.find? (fun p => p.1 = category)).map (·.2)).getD [] ≠ [])
    (hcand : ((skills_by_category.find? (fun p => p.1 = category)).map (·.2)).getD [] = []) :
    per_category skills_by_category required_skills_map (category, weight) =
      some ⟨category, weight, category_floor_score weight, [],
        (((required_skills_map.find? (fun p => p.1 = category)).map (·.2)).getD []).map
          (fun skill =>
            ⟨skill, category, decide (weight ≥ 0.25), some (importance_label weight)⟩),
        []⟩
  ∧ (0.25 ≤ weight → category_floor_score weight = 0)
  ∧ (0.15 ≤ weight → weight < 0.25 → category_floor_score weight = 10)
  ∧ (weight < 0.15 → category_floor_score weight = 50)
  ∧ (∀ m ∈ (((required_skills_map.find? (fun p => p.1 = category)).map (·.2)).getD []).map
        (fun skill =>
          (⟨skill, category, decide (weight ≥ 0.25),
            some (importance_label weight)⟩ : MissingRec)),
      (m.critical = true ↔ 0.25 ≤ weight)) := by
  refine ⟨?_, ?_, ?_, ?_, ?_⟩
  · simp only [per_category]
    rw [if_neg (not_le.mpr hw), if_neg hreq, if_pos hcand]
  · intro h
    simp only [category_floor_score]
    rw [if_pos (by exact h)]
  · intro h1 h2
    simp only [category_floor_score]
    rw [if_neg (by simpa using not_le.mpr h2), if_pos (by exact h1)]
  · intro h
    simp only [category_floor_score]
    rw [if_neg (by simpa using not_le.mpr (lt_of_lt_of_le h (by norm_num))),
        if_neg (by simpa using not_le.mpr h)]
  · intro m hm
    simp only [List.mem_map] at hm
    obtain ⟨sk, _, rfl⟩ := hm
    simp [ge_iff_le]

/-- C3 witness: the floor and the critical flags at a concrete critical
category. -/
theorem C3_zero_skill_category_tiered_floor_witness :
    per_category [("databases", [])] [("programming_languages", ["python", "java"])]
        ("programming_languages", 0.35) =
      some ⟨"programming_languages", 0.35, category_floor_score 0.35, [],
        [⟨"python", "programming_languages", true, some "critical"⟩,
         ⟨"java", "programming_languages", true, some "critical"⟩], []⟩
  ∧ category_floor_score 0.35 = 0 := by
  have h := C3_zero_skill_category_tiered_floor [("databases", [])]
    [("programming_languages", ["python", "java"])] "programming_languages" 0.35
    (by norm_num) (by decide) (by decide)
  refine ⟨?_, h.2.1 (by norm_num)⟩
  have h1 := h.1
  rw [h1]
  with_unfolding_all rfl

/-- C5: the red-flag detector's total penalty is the sum of the triggered
flags' penalties (0.15 job-hopping, 0.08 employment gap, 0.05
over-qualification) clamped at 0.25, hence always within [0, 0.25]. -/
theorem C5_red_flag_penalty_sum_clamped (resume : ResumeProfile) :
    (detect_red_flags resume).total_penalty =
      min (((detect_red_flags resume).flags_detected.map (fun f => f.penalty)).sum) 0.25
  ∧ 0 ≤ (detect_red_flags resume).total_penalty
  ∧ (detect_red_flags resume).total_penalty ≤ 0.25
  ∧ (∀ f ∈ (detect_red_flags resume).flags_detected,
      (f.type = "job_hopping" ∧ f.penalty = 0.15) ∨
        (f.type = "employment_gaps" ∧ f.penalty = 0.08) ∨
        (f.type = "over_qualification" ∧ f.penalty = 0.05)) := by
  simp only [detect_red_flags]
  split_ifs <;> simp_all [Option.toList] <;> norm_num

/-- C4: role classification follows the exact precedence over the keyword
counts: explicit multi-stack phrasing wins immediately; then the two
fullstack thresholds; then data / mobile / devops / backend / frontend
specialist thresholds in order; then the strictly larger of the
frontend/backend counts, with a tie at ≥1 giving fullstack and a 0-0 tie
giving general. -/
theorem C4_role_classification_precedence (e : Bool)
    (fe be dv da mo : ℕ) :
    (e = true → detect_role_from_counts e fe be dv da mo = "fullstack_developer")
  ∧ (e = false → 3 ≤ fe → 3 ≤ be →
      detect_role_from_counts e fe be dv da mo = "fullstack_developer")
  ∧ (e = false → 2 ≤ fe → 2 ≤ be →
      detect_role_from_counts e fe be dv da mo = "fullstack_developer")
  ∧ (e = false → (fe < 2 ∨ be < 2) → 4 ≤ da →
      detect_role_from_counts e fe be dv da mo = "data_scientist")
  ∧ (e = false → (fe < 2 ∨ be < 2) → da < 4 → 3 ≤ mo →
      detect_role_from_counts e fe be dv da mo = "mobile_developer")
  ∧ (e = false → (fe < 2 ∨ be < 2) → da < 4 → mo < 3 → 4 ≤ dv → fe + be < 4 →
      detect_role_from_counts e fe be dv da mo = "devops_engineer")
  ∧ (e = false → (fe < 2 ∨ be < 2) → da < 4 → mo < 3 → ¬(4 ≤ dv ∧ fe + be < 4) →
      4 ≤ be → fe < 2 →
      detect_role_from_counts e fe be dv da mo = "backend_developer")
  ∧ (e = false → (fe < 2 ∨ be < 2) → da < 4 → mo < 3 → ¬(4 ≤ dv ∧ fe + be < 4) →
      4 ≤ fe → be < 2 →
      detect_role_from_counts e fe be dv da mo = "frontend_developer")
  ∧ (e = false → (fe < 2 ∨ be < 2) → da < 4 → mo < 3 → ¬(4 ≤ dv ∧ fe + be < 4) →
      ¬(4 ≤ be ∧ fe < 2) → ¬(4 ≤ fe ∧ be < 2) → fe < be →
      detect_role_from_counts e fe be dv da mo = "backend_developer")
  ∧ (e = false → (fe < 2 ∨ be < 2) → da < 4 → mo < 3 → ¬(4 ≤ dv ∧ fe + be < 4) →
      ¬(4 ≤ be ∧ fe < 2) → ¬(4 ≤ fe ∧ be < 2) → be < fe →
      detect_role_from_counts e fe be dv da mo = "frontend_developer")
  ∧ (e = false → (fe < 2 ∨ be < 2) → da < 4 → mo < 3 → ¬(4 ≤ dv ∧ fe + be < 4) →
      fe = be → 1 ≤ fe →
      detect_role_from_counts e fe be dv da mo = "fullstack_developer")
  ∧ (e = false → da < 4 → mo < 3 → ¬(4 ≤ dv ∧ fe + be < 4) → fe = 0 → be = 0 →
      detect_role_from_counts e fe be dv da mo = "general_developer") := by
  refine ⟨?_, ?_, ?_, ?_, ?_, ?_, ?_, ?_, ?_, ?_, ?_, ?_⟩
  · intro he
    subst he
    unfold detect_role_from_counts
    rw [if_pos rfl]
  · intro he h1 h2
    subst he
    unfold detect_role_from_counts
    rw [if_neg Bool.false_ne_true, if_pos (by omega : fe ≥ 3 ∧ be ≥ 3)]
  · intro he h1 h2
    subst he
    unfold detect_role_from_counts
    by_cases h3 : fe ≥ 3 ∧ be ≥ 3
    · rw [if_neg Bool.false_ne_true, if_pos h3]
    · rw [if_neg Bool.false_ne_true, if_neg h3, if_pos (by omega : fe ≥ 2 ∧ be ≥ 2)]
  · intro he h1 h2
    subst he
    unfold detect_role_from_counts
    rw [if_neg Bool.false_ne_true, if_neg (by omega : ¬(fe ≥ 3 ∧ be ≥ 3)),
      if_neg (by omega : ¬(fe ≥ 2 ∧ be ≥ 2)), if_pos (by omega : da ≥ 4)]
  · intro he h1 h2 h3
    subst he
    unfold detect_role_from_counts
    rw [if_neg Bool.false_ne_true, if_neg (by omega : ¬(fe ≥ 3 ∧ be ≥ 3)),
      if_neg (by omega : ¬(fe ≥ 2 ∧ be ≥ 2)), if_neg (by omega : ¬(da ≥ 4)),
      if_pos (by omega : mo ≥ 3)]
  · intro he h1 h2 h3 h4 h5
    subst he
    unfold detect_role_from_counts
    rw [if_neg Bool.false_ne_true, if_neg (by omega : ¬(fe ≥ 3 ∧ be ≥ 3)),
      if_neg (by omega : ¬(fe ≥ 2 ∧ be ≥ 2)), if_neg (by omega : ¬(da ≥ 4)),
      if_neg (by omega : ¬(mo ≥ 3)), if_pos (by omega : dv ≥ 4 ∧ fe + be < 4)]
  · intro he h1 h2 h3 h4 h5 h6
    subst he
    unfold detect_role_from_counts
    rw [if_neg Bool.false_ne_true, if_neg (by omega : ¬(fe ≥ 3 ∧ be ≥ 3)),
      if_neg (by omega : ¬(fe ≥ 2 ∧ be ≥ 2)), if_neg (by omega : ¬(da ≥ 4)),
      if_neg (by omega : ¬(mo ≥ 3)), if_neg (by omega : ¬(dv ≥ 4 ∧ fe + be < 4)),
      if_pos (by omega : be ≥ 4 ∧ fe < 2)]
  · intro he h1 h2 h3 h4 h5 h6
    subst he
    unfold detect_role_from_counts
    rw [if_neg Bool.false_ne_true, if_neg (by omega : ¬(fe ≥ 3 ∧ be ≥ 3)),
      if_neg (by omega : ¬(fe ≥ 2 ∧ be ≥ 2)), if_neg (by omega : ¬(da ≥ 4)),
      if_neg (by omega : ¬(mo ≥ 3)), if_neg (by omega : ¬(dv ≥ 4 ∧ fe + be < 4)),
      if_neg (by omega : ¬(be ≥ 4 ∧ fe < 2)), if_pos (by omega : fe ≥ 4 ∧ be < 2)]
  · intro he h1 h2 h3 h4 h5 h6 h7
    subst he
    unfold detect_role_from_counts
    rw [if_neg Bool.false_ne_true, if_neg (by omega : ¬(fe ≥ 3 ∧ be ≥ 3)),
      if_neg (by omega : ¬(fe ≥ 2 ∧ be ≥ 2)), if_neg (by omega : ¬(da ≥ 4)),
      if_neg (by omega : ¬(mo ≥ 3)), if_neg (by omega : ¬(dv ≥ 4 ∧ fe + be < 4)),
      if_neg h5, if_neg h6, if_pos (by omega : be > fe)]
  · intro he h1 h2 h3 h4 h5 h6 h7
    subst he
    unfold detect_role_from_counts
    rw [if_neg Bool.false_ne_true, if_neg (by omega : ¬(fe ≥ 3 ∧ be ≥ 3)),
      if_neg (by omega : ¬(fe ≥ 2 ∧ be ≥ 2)), if_neg (by omega : ¬(da ≥ 4)),
      if_neg (by omega : ¬(mo ≥ 3)), if_neg (by omega : ¬(dv ≥ 4 ∧ fe + be < 4)),
      if_neg h5, if_neg h6, if_neg (by omega : ¬(be > fe)), if_pos (by omega : fe > be)]
  · intro he h1 h2 h3 h4 h5 h6
    subst he
    unfold detect_role_from_counts
    rw [if_neg Bool.false_ne_true, if_neg (by omega : ¬(fe ≥ 3 ∧ be ≥ 3)),
      if_neg (by omega : ¬(fe ≥ 2 ∧ be ≥ 2)), if_neg (by omega : ¬(da ≥ 4)),
      if_neg (by omega : ¬(mo ≥ 3)), if_neg (by omega : ¬(dv ≥ 4 ∧ fe + be < 4)),
      if_neg (by omega : ¬(be ≥ 4 ∧ fe < 2)), if_neg (by omega : ¬(fe ≥ 4 ∧ be < 2)),
      if_neg (by omega : ¬(be > fe)), if_neg (by omega : ¬(fe > be)),
      if_pos (by omega : fe ≥ 1 ∧ be ≥ 1)]
  · intro he h1 h2 h3 h4 h5
    subst he
    unfold detect_role_from_counts
    rw [if_neg Bool.false_ne_true, if_neg (by omega : ¬(fe ≥ 3 ∧ be ≥ 3)),
      if_neg (by omega : ¬(fe ≥ 2 ∧ be ≥ 2)), if_neg (by omega : ¬(da ≥ 4)),
      if_neg (by omega : ¬(mo ≥ 3)), if_neg (by omega : ¬(dv ≥ 4 ∧ fe + be < 4)),
      if_neg (by omega : ¬(be ≥ 4 ∧ fe < 2)), if_neg (by omega : ¬(fe ≥ 4 ∧ be < 2)),
      if_neg (by omega : ¬(be > fe)), if_neg (by omega : ¬(fe > be)),
      if_neg (by omega : ¬(fe ≥ 1 ∧ be ≥ 1))]

/-- C4 witness: the decision chain instantiated at concrete counts. -/
theorem C4_role_classification_precedence_witness :
    detect_role_from_counts true 0 0 0 0 0 = "fullstack_developer"
  ∧ detect_role_from_counts false 1 5 0 0 0 = "backend_developer"
  ∧ detect_role_from_counts false 1 1 0 0 0 = "fullstack_developer"
  ∧ detect_role_from_counts false 0 0 0 0 0 = "general_developer" :=
  ⟨(C4_role_classification_precedence true 0 0 0 0 0).1 rfl,
   (C4_role_classification_precedence false 1 5 0 0 0).2.2.2.2.2.2.1 rfl (by omega)
     (by omega) (by omega) (by omega) (by omega) (by omega),
   (C4_role_classification_precedence false 1 1 0 0 0).2.2.2.2.2.2.2.2.2.2.1 rfl
     (by omega) (by omega) (by omega) (by omega) rfl (by omega),
   (C4_role_classification_precedence false 0 0 0 0 0).2.2.2.2.2.2.2.2.2.2.2 rfl
     (by omega) (by omega) (by omega) rfl rfl⟩

/-- The normalisation step as the specification words it: lowercase, trim,
strip non-alphanumeric decoration, then synonym lookup on the cleaned
string.  Stripping removes every character that is neither alphanumeric
nor whitespace (whitespace must survive any reading of "decoration", as
the variant table itself contains multi-word entries).  This definition
follows the claim's words and exists only to be compared against
`normalize_skill`, which follows the source. -/
def claimed_normalize_with_strip (skill : String) : String :=
  if skill = "" then ""
  else
    let cleaned :=
      ((skill.toLower.trim).toList.filter (fun c => c.isAlphanum || c = ' ')).asString
    match synonyms_table.find? (fun p => p.2.contains cleaned) with
    | some p => p.1
    | none => cleaned

/-- C8 counterexample: the source's `_normalize_skill` does not strip
non-alphanumeric decoration — on "python!" it returns "python!", while
the claimed strip-then-lookup normalisation returns the canonical
"python". -/
theorem C8_counterexample_no_strip :
    normalize_skill "python!" = "python!"
  ∧ claimed_normalize_with_strip "python!" = "python"
  ∧ normalize_skill "python!" ≠ claimed_normalize_with_strip "python!" := by
  refine ⟨by with_unfolding_all rfl, by with_unfolding_all rfl, ?_⟩
  intro h
  rw [show normalize_skill "python!" = "python!" from by with_unfolding_all rfl,
    show claimed_normalize_with_strip "python!" = "python" from by with_unfolding_all rfl]
      at h
  exact absurd h (by decide)

/-- C8 (amended): `_normalize_skill` lowercases and trims (but does not
strip other non-alphanumeric decoration), then returns the canonical name
whose variant set contains the cleaned string, else the cleaned string
unchanged; empty or blank input normalizes to the empty string. -/
theorem C8_normalize_lowercase_trim_lookup (skill : String) :
    (normalize_skill "" = "")
  ∧ (skill.toLower.trim = "" → normalize_skill skill = "")
  ∧ (∀ entry, skill ≠ "" →
      synonyms_table.find? (fun p => p.2.contains skill.toLower.trim) = some entry →
      normalize_skill skill = entry.1)
  ∧ (skill ≠ "" →
      synonyms_table.find? (fun p => p.2.contains skill.toLower.trim) = none →
      normalize_skill skill = skill.toLower.trim) := by
  refine ⟨rfl, ?_, ?_, ?_⟩
  · intro hb
    by_cases hs : skill = ""
    · rw [hs]; rfl
    · simp only [normalize_skill, if_neg hs, hb]
      have : synonyms_table.find? (fun p => p.2.contains "") = none := by
        with_unfolding_all rfl
      rw [this]
  · intro entry hs hfind
    simp only [normalize_skill, if_neg hs, hfind]
  · intro hs hfind
    simp only [normalize_skill, if_neg hs, hfind]

/-- C8 witness: the amended normalisation at concrete inputs — a blank
string normalizes to the empty string, and a decorated string that misses
the synonym table is returned lowercased and trimmed but unstripped. -/
theorem C8_normalize_lowercase_trim_lookup_witness :
    normalize_skill "   " = "" ∧ normalize_skill " C++ " = "c++" :=
  ⟨(C8_normalize_lowercase_trim_lookup "   ").2.1 (by with_unfolding_all rfl),
   ((C8_normalize_lowercase_trim_lookup " C++ ").2.2.2 (by decide)
     (by with_unfolding_all rfl)).trans (by with_unfolding_all rfl)⟩

/-- A small concrete job profile used as a test fixture. -/
def sample_job : JobProfile :=
  { summary := "Senior Backend Engineer"
  , key_responsibilities := some ["build services", "design databases"]
  , seniority_level := "senior"
  , required_skills :=
      [("programming_languages", ["python", "java"]), ("databases", ["postgresql"])]
  , minimum_experience := some 5
  , education_requirements := ⟨some "Bachelor\u0027s", none, ["computer science"], []⟩ }

/-- A small concrete resume profile used as a test fixture. -/
def sample_resume : ResumeProfile :=
  { skills_by_category :=
      [ ("programming_languages", [SkillItem.obj (some "Python") (some "expert") (some 6)])
      , ("databases", [SkillItem.obj (some "Postgres") (some "advanced") (some 4)]) ]
  , experience_analysis := ⟨some 7, some 6, some "senior"⟩
  , work_history :=
      [ ⟨"Tech Lead", ["increased throughput by 40%"], ["python", "postgresql"],
          some 30, "2019", "present"⟩
      , ⟨"Engineer", ["built pipeline"], ["python"], some 36, "2016", "2019"⟩ ]
  , education := ⟨[⟨"Bachelor\u0027s", some "Computer Science"⟩], [⟨some "AWS Certified"⟩]⟩
  , contact_info := ⟨some "A. Candidate", none, none, none, none⟩
  , resume_quality := ⟨some 80⟩
  , career_insights := ⟨some "ascending", ["backend"], ["introduced ci"]⟩
  , leadership_indicators := ⟨true⟩
  , projects := ["p1", "p2"]
  , skill_diversity_score := some 70 }

/-- C7 counterexample: two invocations of the scoring pipeline on the very
same (resumeProfile, jobProfile, filename) but at different wall-clock
instants produce different `ScoreResult` values — the result embeds the
clock through `processing_metadata` (`timestamp`,
`processing_time_seconds`), so the full result is not a function of the
profiles alone. -/
theorem C7_counterexample_clock_in_result :
    score_resume_against_job sample_resume sample_job "resume.pdf"
        ⟨0, 1, "2024-01-01T00:00:00"⟩ ≠
      score_resume_against_job sample_resume sample_job "resume.pdf"
        ⟨0, 1, "2024-01-01T00:00:05"⟩ := by
  intro h
  have h2 : ("2024-01-01T00:00:00" : String) = "2024-01-01T00:00:05" :=
    congrArg (fun r => r.processing_metadata.timestamp) h
  exact absurd h2 (by decide)

/-- C7 (amended): apart from `processing_metadata` (the processing time
and the timestamp, which read the wall clock), the `ScoreResult` of the
scoring pipeline is a deterministic function of the resume profile, the
job profile and the filename: every score-bearing field is identical
across invocations regardless of the clock, with no randomness. -/
theorem C7_score_deterministic_up_to_metadata (resume : ResumeProfile) (job : JobProfile)
    (filename : String) (c1 c2 : Clock) :
    strip_processing_metadata (score_resume_against_job resume job filename c1) =
      strip_processing_metadata (score_resume_against_job resume job filename c2) := rfl

/-- The batch averaging convention the claim asserts: mean over the
non-error entries (regardless of their scores), rounded as the source
rounds.  This definition follows the claim's words and exists only to be
compared against `score_multiple_resumes`, which follows the source. -/
def claimed_average_over_non_error (items : List BatchItem) : ℚ :=
  let v := (items.map mk_batch_entry).filterMap (fun e =>
    match e with
    | .ok r => some r.overall_score
    | .failed _ _ => none)
  if v ≠ [] then py_round (v.sum / (v.length : ℚ)) 1 else 0

/-- A fully degraded but successfully produced score result (every pillar
scorer fell back to 0, as the per-component exception handlers of the
source do on malformed collaborator output), carrying an overall score of
exactly 0. -/
def degraded_result : ScoreResult :=
  { filename := "degraded.pdf"
  , overall_score := 0
  , recommendation := "🚫 Poor fit - Not recommended for this position"
  , score_breakdown := ⟨0, 0, 0, 0⟩
  , enhanced_skill_analysis := ⟨[], [], [], 0, [], [], [], "general_developer"⟩
  , experience_quality_analysis := ⟨0, 0, 0, 0, 0, 0, [], "basic"⟩
  , red_flag_analysis := ⟨[], "minimal", 0, false⟩
  , candidate_insights := ⟨"unknown", "unknown", [], 0, 0, 0⟩
  , key_strengths := []
  , areas_of_concern := []
  , justification := ""
  , role_specific_insights := ⟨[], []⟩
  , candidate_info := ⟨none, none, none, none, none, none, none, none, none⟩
  , processing_metadata := ⟨0, "google_gemini_enhanced", "enterprise_3.0", "t0", []⟩ }

/-- A successfully scored result with overall score 80. -/
def strong_result : ScoreResult :=
  { degraded_result with filename := "strong.pdf", overall_score := 80 }

/-- C9 counterexample: the batch's average is computed over the entries
with `overall_score > 0`, not over the non-error entries — a successful
entry whose overall score is 0 is excluded.  On a batch of two successful
results scoring 80 and 0 the source computes 80, while the claimed
average over non-error entries is 40. -/
theorem C9_counterexample_zero_score_success_excluded :
    (score_multiple_resumes
        [⟨"strong.pdf", Except.ok strong_result⟩, ⟨"degraded.pdf", Except.ok degraded_result⟩]
        ⟨0, 1, "t"⟩).average_score = 80
  ∧ claimed_average_over_non_error
        [⟨"strong.pdf", Except.ok strong_result⟩, ⟨"degraded.pdf", Except.ok degraded_result⟩]
      = 40
  ∧ (80 : ℚ) ≠ 40 := by
  refine ⟨by with_unfolding_all rfl, by with_unfolding_all rfl, by norm_num⟩

/-- C9 (amended): a failure while scoring one resume does not abort the
batch: the results list has exactly one entry per submitted resume (a
permutation of the per-resume outcomes, sorted by score descending),
every failed entry carries score 0 together with its error message, every
successful entry keeps its full result, and the batch average is computed
over the entries with `overall_score > 0` (equivalently the non-error
entries whenever every successful entry scores above zero). -/
theorem C9_batch_partial_failure_isolation (items : List BatchItem) (clock : Clock) :
    (score_multiple_resumes items clock).results.length = items.length
  ∧ (score_multiple_resumes items clock).results.Perm (items.map mk_batch_entry)
  ∧ List.Pairwise (fun a b => entry_score b ≤ entry_score a)
      (score_multiple_resumes items clock).results
  ∧ (∀ fn msg, BatchEntry.failed fn msg ∈ (score_multiple_resumes items clock).results →
      entry_score (BatchEntry.failed fn msg) = 0)
  ∧ (∀ item ∈ items, ∀ msg, item.outcome = Except.error msg →
      BatchEntry.failed item.filename msg ∈ (score_multiple_resumes items clock).results)
  ∧ (∀ item ∈ items, ∀ r, item.outcome = Except.ok r →
      BatchEntry.ok r ∈ (score_multiple_resumes items clock).results)
  ∧ (score_multiple_resumes items clock).average_score =
      (if (((items.map mk_batch_entry).filter
              (fun r => decide (entry_score r > 0))).map entry_score) ≠ [] then
        py_round
          ((((items.map mk_batch_entry).filter
              (fun r => decide (entry_score r > 0))).map entry_score).sum /
            (((((items.map mk_batch_entry).filter
              (fun r => decide (entry_score r > 0))).map entry_score).length : ℕ) : ℚ)) 1
      else 0) := by
  have hperm : ((items.map mk_batch_entry).mergeSort
        (fun a b => decide (entry_score b ≤ entry_score a))).Perm
      (items.map mk_batch_entry) :=
    List.mergeSort_perm _ _
  refine ⟨?_, ?_, ?_, ?_, ?_, ?_, ?_⟩
  · exact hperm.length_eq.trans (List.length_map items mk_batch_entry)
  · exact hperm
  · have h := @List.sorted_mergeSort BatchEntry
      (fun a b : BatchEntry => decide (entry_score b ≤ entry_score a))
      (fun a b c hab hbc => by
        simp only [decide_eq_true_iff] at hab hbc ⊢
        exact le_trans hbc hab)
      (fun a b => by
        simp only [Bool.or_eq_true, decide_eq_true_iff]
        exact le_total (entry_score b) (entry_score a))
      (items.map mk_batch_entry)
    exact h.imp (fun hab => of_decide_eq_true hab)
  · intro fn msg _
    rfl
  · intro item hitem msg houtcome
    refine hperm.mem_iff.mpr ?_
    have : mk_batch_entry item = BatchEntry.failed item.filename msg := by
      simp [mk_batch_entry, houtcome]
    exact this ▸ List.mem_map_of_mem mk_batch_entry hitem
  · intro item hitem r houtcome
    refine hperm.mem_iff.mpr ?_
    have : mk_batch_entry item = BatchEntry.ok r := by
      simp [mk_batch_entry, houtcome]
    exact this ▸ List.mem_map_of_mem mk_batch_entry hitem
  · have hfperm := (hperm.filter (fun r => decide (entry_score r > 0))).map entry_score
    have hsum := hfperm.sum_eq
    have hlen := hfperm.length_eq
    have hiff : ((((items.map mk_batch_entry).mergeSort
            (fun a b => decide (entry_score b ≤ entry_score a))).filter
            (fun r => decide (entry_score r > 0))).map entry_score = []) ↔
        ((((items.map mk_batch_entry).filter
            (fun r => decide (entry_score r > 0))).map entry_score) = []) := by
      constructor
      · intro h
        exact List.length_eq_zero.mp (hlen.symm.trans (by rw [h]; rfl))
      · intro h
        exact List.length_eq_zero.mp (hlen.trans (by rw [h]; rfl))
    show (if _ ≠ ([] : List ℚ) then _ else (0 : ℚ)) = _
    by_cases hne : (((items.map mk_batch_entry).filter
        (fun r => decide (entry_score r > 0))).map entry_score) = []
    · rw [if_neg (not_not_intro (hiff.mpr hne)), if_neg (not_not_intro hne)]
    · rw [if_pos (fun hc => hne (hiff.mp hc)), if_pos hne, hsum, hlen]

/-- C9 witness: a batch of one success and one failure keeps both entries
and records the failure with its error marker. -/
theorem C9_batch_partial_failure_isolation_witness :
    (score_multiple_resumes
        [⟨"a.pdf", Except.ok strong_result⟩, ⟨"b.pdf", Except.error "boom"⟩]
        ⟨0, 1, "t"⟩).results.length = 2
  ∧ BatchEntry.failed "b.pdf" "boom" ∈ (score_multiple_resumes
        [⟨"a.pdf", Except.ok strong_result⟩, ⟨"b.pdf", Except.error "boom"⟩]
        ⟨0, 1, "t"⟩).results :=
  ⟨(C9_batch_partial_failure_isolation
      [⟨"a.pdf", Except.ok strong_result⟩, ⟨"b.pdf", Except.error "boom"⟩] ⟨0, 1, "t"⟩).1,
   (C9_batch_partial_failure_isolation
      [⟨"a.pdf", Except.ok strong_result⟩, ⟨"b.pdf", Except.error "boom"⟩]
      ⟨0, 1, "t"⟩).2.2.2.2.1
     ⟨"b.pdf", Except.error "boom"⟩ (by simp) "boom" rfl⟩

/-- The years value an item contributes to the candidate map (the
source's `skill_item.get("years_experience", 0) or 0` defaulting). -/
def item_years : SkillItem → ℚ
  | .obj _ _ y => y.getD 0
  | .txt _ => 0

/-- The proficiency base is always positive. -/
lemma proficiency_base_score_pos (p : String) : 0 < proficiency_base_score p := by
  simp only [proficiency_base_score]
  split_ifs <;> norm_num

/-- Each match-type multiplier is positive. -/
lemma type_modifier_pos (t : MatchType) : 0 < type_modifier t := by
  cases t <;> norm_num [type_modifier]

/-- A matched skill's score lies within [0, 100] when the recorded years
are non-negative. -/
lemma match_final_score_bounds (p : String) (y : ℚ) (t : MatchType) (hy : 0 ≤ y) :
    0 ≤ match_final_score p y t ∧ match_final_score p y t ≤ 100 := by
  constructor
  · refine le_min (mul_nonneg (add_nonneg (le_of_lt (proficiency_base_score_pos p)) ?_)
      (le_of_lt (type_modifier_pos t))) (by norm_num)
    exact le_min (by positivity) (by norm_num)
  · exact min_le_right _ _

/-- Every entry of a Python-dict insertion is an old entry or the new
binding. -/
lemma insertEntry_mem (m : List (String × CandInfo)) (k : String) (v : CandInfo) :
    ∀ e ∈ insertEntry m k v, e ∈ m ∨ e = (k, v) := by
  intro e he
  simp only [insertEntry] at he
  split at he
  · simp only [List.mem_map] at he
    obtain ⟨p, hp, hpe⟩ := he
    by_cases hk : p.1 = k
    · right
      rw [if_pos hk] at hpe
      exact hpe.symm
    · left
      rw [if_neg hk] at hpe
      exact hpe ▸ hp
  · rcases List.mem_append.mp he with h | h
    · exact Or.inl h
    · simp only [List.mem_singleton] at h
      exact Or.inr h

/-- The candidate map only stores non-negative years when every source
item carries non-negative years. -/
lemma foldl_candidateStep_years (skills : List SkillItem)
    (acc : List (String × CandInfo))
    (hacc : ∀ e ∈ acc, 0 ≤ e.2.years)
    (h : ∀ item ∈ skills, 0 ≤ item_years item) :
    ∀ e ∈ skills.foldl candidateStep acc, 0 ≤ e.2.years := by
  induction skills generalizing acc with
  | nil => exact hacc
  | cons item rest ih =>
    refine ih (candidateStep acc item) ?_ (fun i hi => h i (List.mem_cons_of_mem _ hi))
    have hitem : 0 ≤ item_years item := h item (List.mem_cons_self _ _)
    intro e he
    cases item with
    | obj nameOpt profOpt yearsOpt =>
      simp only [candidateStep] at he
      split at he
      · exact hacc e he
      · rcases insertEntry_mem _ _ _ e he with hmem | hnew
        · exact hacc e hmem
        · rw [hnew]
          simpa [item_years] using hitem
    | txt str =>
      simp only [candidateStep] at he
      split at he
      · exact hacc e he
      · rcases insertEntry_mem _ _ _ e he with hmem | hnew
        · exact hacc e hmem
        · rw [hnew]

/-- `buildCandidateMap` preserves non-negative years. -/
lemma buildCandidateMap_years (skills : List SkillItem)
    (h : ∀ item ∈ skills, 0 ≤ item_years item) :
    ∀ e ∈ buildCandidateMap skills, 0 ≤ e.2.years :=
  foldl_candidateStep_years skills [] (by simp) h

/-- A successful map lookup returns a stored record. -/
lemma lookupEntry_mem (m : List (String × CandInfo)) (k : String) (info : CandInfo)
    (h : lookupEntry m k = some info) : ∃ p ∈ m, p.2 = info := by
  simp only [lookupEntry, Option.map_eq_some'] at h
  obtain ⟨p, hp, hpe⟩ := h
  exact ⟨p, List.mem_of_find?_eq_some hp, hpe⟩

/-- A successful match returns a candidate record from the map, hence one
with non-negative years when the map only stores such records. -/
lemma findMatch_years (m : List (String × CandInfo)) (s : String)
    (hm : ∀ e ∈ m, 0 ≤ e.2.years) (info : CandInfo) (t : MatchType)
    (h : findMatch m s = some (info, t)) : 0 ≤ info.years := by
  simp only [findMatch] at h
  cases h1 : lookupEntry m s.toLower with
  | some i1 =>
    rw [h1] at h
    obtain ⟨p, hp, hpe⟩ := lookupEntry_mem m _ i1 h1
    cases h
    exact hpe ▸ hm p hp
  | none =>
    rw [h1] at h
    cases h2 : lookupEntry m (normalize_skill s) with
    | some i2 =>
      rw [h2] at h
      obtain ⟨p, hp, hpe⟩ := lookupEntry_mem m _ i2 h2
      cases h
      exact hpe ▸ hm p hp
    | none =>
      rw [h2] at h
      cases h3 : m.find? (fun p => skills_are_related s.toLower p.1) with
      | some p =>
        rw [h3] at h
        cases h
        exact hm p (List.mem_of_find?_eq_some h3)
      | none =>
        rw [h3] at h
        cases h

/-- Every match record produced by the matching fold carries a score in
[0, 100], provided the candidate map only stores non-negative years. -/
lemma foldl_matchStep_scores (m : List (String × CandInfo)) (category : String)
    (required : List String)
    (acc : List MatchRec × List MissingRec × List SynRec)
    (hm : ∀ e ∈ m, 0 ≤ e.2.years)
    (hacc : ∀ mr ∈ acc.1, 0 ≤ mr.score ∧ mr.score ≤ 100) :
    ∀ mr ∈ (required.foldl (matchStep m category) acc).1,
      0 ≤ mr.score ∧ mr.score ≤ 100 := by
  induction required generalizing acc with
  | nil => exact hacc
  | cons req rest ih =>
    refine ih (matchStep m category acc req) ?_
    intro mr hmr
    obtain ⟨ms, miss, syns⟩ := acc
    simp only [matchStep] at hmr
    cases hfind : findMatch m req with
    | some it =>
      obtain ⟨info, t⟩ := it
      rw [hfind] at hmr
      simp only [List.mem_append, List.mem_singleton] at hmr
      rcases hmr with hold | hnew
      · exact hacc mr hold
      · rw [hnew]
        exact match_final_score_bounds _ _ _ (findMatch_years m req hm info t hfind)
    | none =>
      rw [hfind] at hmr
      exact hacc mr hmr

/-- The category score of `_match_skills_with_intelligence` lies within
[0, 100] when the candidate items carry non-negative years. -/
lemma match_skills_with_intelligence_bounds (candidate_skills : List SkillItem)
    (required_skills : List String) (category : String)
    (h : ∀ item ∈ candidate_skills, 0 ≤ item_years item) :
    0 ≤ (match_skills_with_intelligence candidate_skills required_skills category).score ∧
      (match_skills_with_intelligence candidate_skills required_skills category).score ≤ 100 := by
  have hm := buildCandidateMap_years candidate_skills h
  have hscores := foldl_matchStep_scores (buildCandidateMap candidate_skills) category
    required_skills ([], [], []) hm (by simp)
  constructor
  · refine le_min ?_ (by norm_num)
    split
    · refine mul_nonneg (div_nonneg ?_ (by positivity)) (by norm_num)
      exact List.sum_nonneg (fun x hx => by
        obtain ⟨mr, hmr, hmx⟩ := List.mem_map.mp hx
        exact hmx ▸ (hscores mr hmr).1)
    · norm_num
  · exact min_le_right _ _

/-- The tiered floor scores are within [0, 100]. -/
lemma category_floor_score_bounds (w : ℚ) :
    0 ≤ category_floor_score w ∧ category_floor_score w ≤ 100 := by
  simp only [category_floor_score]
  split_ifs <;> norm_num

/-- Every outcome the category loop keeps has a positive weight (equal to
its input weight) and a score within [0, 100]. -/
lemma per_category_some_bounds (skills_by_category : List (String × List SkillItem))
    (required_skills_map : List (String × List String)) (category : String) (weight : ℚ)
    (out : CatOutcome)
    (hWF : ∀ p ∈ skills_by_category, ∀ item ∈ p.2, 0 ≤ item_years item)
    (h : per_category skills_by_category required_skills_map (category, weight) = some out) :
    out.weight = weight ∧ 0 < out.weight ∧ 0 ≤ out.score ∧ out.score ≤ 100 := by
  simp only [per_category] at h
  split at h
  · exact absurd h (by simp)
  · rename_i hwpos
    have hw : 0 < weight := lt_of_not_le hwpos
    split at h
    · cases h
      exact ⟨rfl, hw, by norm_num, by norm_num⟩
    · split at h
      · cases h
        exact ⟨rfl, hw, (category_floor_score_bounds weight).1,
          (category_floor_score_bounds weight).2⟩
      · cases h
        refine ⟨rfl, hw, ?_⟩
        have hitems : ∀ item ∈ (((skills_by_category.find?
            (fun p => p.1 = category)).map (·.2)).getD []), 0 ≤ item_years item := by
          cases hfind : skills_by_category.find? (fun p => p.1 = category) with
          | some p =>
            intro item hitem
            exact hWF p (List.mem_of_find?_eq_some hfind) item (by simpa [hfind] using hitem)
          | none => simp [hfind]
        exact match_skills_with_intelligence_bounds _ _ _ hitems

/-- Every stack-synergy bonus value is non-negative. -/
lemma relationship_bonuses_nonneg (ms : List MatchRec) :
    ∀ b ∈ calculate_skill_relationship_bonuses ms, 0 ≤ b.2 := by
  intro b hb
  simp only [calculate_skill_relationship_bonuses, List.mem_append] at hb
  rcases hb with ((((h | h) | h) | h) | h) <;>
    · split at h <;> simp only [List.mem_singleton, List.not_mem_nil] at h
      rw [h]
      norm_num

/-- C10: on well-typed profiles (schema: non-negative years on every
declared skill) the skill-match scorer is a total function — its overall
score is a well-defined rational within [0, 100] for every resume, job
and detected role — and absence of data degrades instead of failing: a
category with no requirements scores the full 100, and a category with
requirements but no declared candidate skills scores the tiered floor. -/
theorem C10_skill_scorer_totality_and_degradation
    (skills_by_category : List (String × List SkillItem))
    (required_skills_map : List (String × List String))
    (detected_role : String)
    (hWF : ∀ p ∈ skills_by_category, ∀ item ∈ p.2, 0 ≤ item_years item) :
    (0 ≤ (score_enhanced_skills_match skills_by_category required_skills_map
          detected_role).score ∧
      (score_enhanced_skills_match skills_by_category required_skills_map
          detected_role).score ≤ 100)
  ∧ (∀ category weight, 0 < weight →
      ((required_skills_map.find? (fun p => p.1 = category)).map (·.2)).getD [] = [] →
      per_category skills_by_category required_skills_map (category, weight) =
        some ⟨category, weight, 100, [], [], []⟩)
  ∧ (∀ category weight, 0 < weight →
      ((required_skills_map.find? (fun p => p.1 = category)).map (·.2)).getD [] ≠ [] →
      ((skills_by_category.find? (fun p => p.1 = category)).map (·.2)).getD [] = [] →
      (per_category skills_by_category required_skills_map (category, weight)).map
        (fun c => c.score) = some (category_floor_score weight)) := by
  refine ⟨?_, ?_, ?_⟩
  · have hmem : ∀ c ∈ (get_role_specific_weights_fixed detected_role).filterMap
        (per_category skills_by_category required_skills_map),
        0 < c.weight ∧ 0 ≤ c.score ∧ c.score ≤ 100 := by
      intro c hc
      obtain ⟨cw, _, hsome⟩ := List.mem_filterMap.mp hc
      obtain ⟨_, hwpos, hs0, hs100⟩ :=
        per_category_some_bounds skills_by_category required_skills_map cw.1 cw.2 c hWF hsome
      exact ⟨hwpos, hs0, hs100⟩
    have hsum0 : 0 ≤ (((get_role_specific_weights_fixed detected_role).filterMap
        (per_category skills_by_category required_skills_map)).map
          (fun c => c.score * c.weight)).sum := by
      refine List.sum_nonneg ?_
      intro x hx
      obtain ⟨c, hc, rfl⟩ := List.mem_map.mp hx
      exact mul_nonneg (hmem c hc).2.1 (le_of_lt (hmem c hc).1)
    have hoverall : 0 ≤ (if 0 < (((get_role_specific_weights_fixed
        detected_role).filterMap
          (per_category skills_by_category required_skills_map)).map
            (fun c => c.weight)).sum then
        (((get_role_specific_weights_fixed detected_role).filterMap
          (per_category skills_by_category required_skills_map)).map
            (fun c => c.score * c.weight)).sum /
          (((get_role_specific_weights_fixed detected_role).filterMap
            (per_category skills_by_category required_skills_map)).map
              (fun c => c.weight)).sum
      else 0) := by
      split
      · exact div_nonneg hsum0 (by linarith)
      · exact le_refl 0
    have hmult : (0:ℚ) ≤ 1 +
        ((calculate_skill_relationship_bonuses
          ((((get_role_specific_weights_fixed detected_role).filterMap
            (per_category skills_by_category required_skills_map)).map
              (fun c => c.matchesList)).flatten)).map (fun b => b.2)).sum * 0.15 := by
      have : 0 ≤ ((calculate_skill_relationship_bonuses
          ((((get_role_specific_weights_fixed detected_role).filterMap
            (per_category skills_by_category required_skills_map)).map
              (fun c => c.matchesList)).flatten)).map (fun b => b.2)).sum := by
        refine List.sum_nonneg ?_
        intro x hx
        obtain ⟨b, hb, rfl⟩ := List.mem_map.mp hx
        exact relationship_bonuses_nonneg _ b hb
      linarith
    exact ⟨le_min (mul_nonneg hoverall hmult) (by norm_num), min_le_right _ _⟩
  · intro category weight hw hreq
    simp only [per_category]
    rw [if_neg (not_le.mpr hw), if_pos hreq]
  · intro category weight hw hreq hcand
    simp only [per_category]
    rw [if_neg (not_le.mpr hw), if_neg hreq, if_pos hcand]
    rfl

/-- C10 witness: the bounds and both degradation clauses at concrete
profiles. -/
theorem C10_skill_scorer_totality_and_degradation_witness :
    (0 ≤ (score_enhanced_skills_match sample_resume.skills_by_category
          sample_job.required_skills "backend_developer").score ∧
      (score_enhanced_skills_match sample_resume.skills_by_category
          sample_job.required_skills "backend_developer").score ≤ 100)
  ∧ per_category sample_resume.skills_by_category sample_job.required_skills
        ("devops_tools", 0.1) = some ⟨"devops_tools", 0.1, 100, [], [], []⟩
  ∧ (per_category [] sample_job.required_skills ("programming_languages", 0.3)).map
        (fun c => c.score) = some (category_floor_score 0.3) := by
  have hWF : ∀ p ∈ sample_resume.skills_by_category, ∀ item ∈ p.2, 0 ≤ item_years item := by
    intro p hp item hi
    fin_cases hp <;> fin_cases hi <;> norm_num [item_years]
  refine ⟨(C10_skill_scorer_totality_and_degradation sample_resume.skills_by_category
      sample_job.required_skills "backend_developer" hWF).1, ?_, ?_⟩
  · exact (C10_skill_scorer_totality_and_degradation sample_resume.skills_by_category
      sample_job.required_skills "backend_developer" hWF).2.1 "devops_tools" 0.1
        (by norm_num) (by with_unfolding_all rfl)
  · exact (C10_skill_scorer_totality_and_degradation ([] : List (String × List SkillItem))
      sample_job.required_skills "backend_developer" (by simp)).2.2 "programming_languages"
        0.3 (by norm_num) (by with_unfolding_all decide) (by with_unfolding_all rfl)

end ResumeScreening
